import Mathlib

set_option maxHeartbeats 1000000
set_option maxRecDepth 4000
set_option linter.unusedVariables false

/-!
Shallow embedding of `src/packages/mastrogpt/chat/chat.py` and proofs about it.

The Python module implements one turn of a conversational assistant:
`chat(args)` defaults the caller state, dispatches between an `@`-command path
and a chat path, relays decoded streaming deltas to a best-effort side-channel
socket while accumulating the reply, and returns
`{"output": ..., "streaming": ..., "state": ...}`.

Modelling conventions:
- Python values that can flow through the state bag are modelled by `JVal`
  (ints are exact; non-integer numeric literals are kept as their lexeme,
  their arithmetic is never used by the program).
- `json.loads` is modelled by `jsonParse`, a fuel-based JSON parser mirroring
  Python's acceptance (including `NaN`/`Infinity`, last-wins duplicate keys,
  whole-input consumption).  Unicode-escape corner cases (surrogate pairs) are
  approximated.
- Python dynamic operations (`in`, subscription, `len`, `.get`) are modelled by
  `Except String` functions whose error label names the Python exception class.
- External effects are an explicit world: `Net.connectOk` is the outcome of
  `socket.connect`, `Net.sends` the outcomes of successive `sendall` calls
  (an exhausted list means the remaining sends succeed), `Net.upstream` the
  upstream HTTP response (`fail msg` = a `requests` exception at request time
  or from `raise_for_status`, `ok lines` = the body as `iter_lines` yields it).
- `print` and `time.sleep` have no modelled effect; request headers/payload
  construction has no observable effect and is not modelled.
- `STREAM_ENABLED` is the literal `True` in the source; the dead
  non-streaming arm (source lines 221-231) is therefore not modelled and the
  guards `if STREAM_ENABLED:` are inlined.
- An uncaught Python exception is the outcome `Outcome.exn label`; a normal
  return is `Outcome.ok result`.  The side-channel events that happened during
  the turn are returned as a trace (`List Ev`) next to the outcome.
-/

namespace MastroChat

/-- Model of a Python value as far as the chat module can observe it. -/
inductive JVal where
  | null
  | bool (b : Bool)
  | num (n : Int)
  | numF (lexeme : String)
  | str (s : String)
  | arr (xs : List JVal)
  | obj (kvs : List (String × JVal))

mutual

/-- Structural equality on `JVal`, mirroring Python `==` on JSON-shaped data
as far as the module uses it (only string-vs-element comparisons occur). -/
def jvalBeq : JVal → JVal → Bool
  | .null, .null => true
  | .bool a, .bool b => a == b
  | .num a, .num b => a == b
  | .numF a, .numF b => a == b
  | .str a, .str b => a == b
  | .arr a, .arr b => jlistBeq a b
  | .obj a, .obj b => jkvsBeq a b
  | _, _ => false

def jlistBeq : List JVal → List JVal → Bool
  | [], [] => true
  | x :: xs, y :: ys => jvalBeq x y && jlistBeq xs ys
  | _, _ => false

def jkvsBeq : List (String × JVal) → List (String × JVal) → Bool
  | [], [] => true
  | (k, v) :: xs, (k', v') :: ys => k == k' && jvalBeq v v' && jkvsBeq xs ys
  | _, _ => false

end

/-- ASCII approximation of Python `str.lower` (the catalog is ASCII). -/
def pyLowerChar (c : Char) : Char :=
  if 'A' ≤ c ∧ c ≤ 'Z' then Char.ofNat (c.toNat + 32) else c

/-- Python `s.lower()` (ASCII approximation). -/
def pyLower (s : String) : String := String.mk (s.data.map pyLowerChar)

/-- Characters stripped by Python `str.strip` (ASCII whitespace). -/
def isPySpace (c : Char) : Bool :=
  c = ' ' || c = '\t' || c = '\n' || c = '\r' || c = '\x0b' || c = '\x0c'

/-- Python `s.strip()` (ASCII-whitespace approximation). -/
def pyStrip (s : String) : String :=
  String.mk (((s.data.dropWhile isPySpace).reverse.dropWhile isPySpace).reverse)

/-- Python `s[1:]` for the command prefix extraction. -/
def strTail (s : String) : String := String.mk s.data.tail

/-- Python `s.startswith('@')`: a first-character test. -/
def startsWithAmp (s : String) : Bool :=
  match s.data with
  | [] => false
  | c :: _ => c = '@'

/-- Python `line.startswith('data: ')`. -/
def hasDataMarker (line : String) : Bool :=
  match line.data with
  | 'd' :: 'a' :: 't' :: 'a' :: ':' :: ' ' :: _ => true
  | _ => false

/-- `sep.join(xs)` (Python `"\n".join(...)`). -/
def sepJoin (sep : String) : List String → String
  | [] => ""
  | [s] => s
  | s :: rest => s ++ sep ++ sepJoin sep rest

mutual

/-- Python `repr` of a `JVal`, used only through `pyStr` inside f-strings. -/
def pyRepr : JVal → String
  | .null => "None"
  | .bool true => "True"
  | .bool false => "False"
  | .num n => toString n
  | .numF lexeme => lexeme
  | .str s => "'" ++ s ++ "'"
  | .arr xs => "[" ++ pyReprList xs ++ "]"
  | .obj kvs => "\x7b" ++ pyReprKvs kvs ++ "\x7d"

def pyReprList : List JVal → String
  | [] => ""
  | [x] => pyRepr x
  | x :: xs => pyRepr x ++ ", " ++ pyReprList xs

def pyReprKvs : List (String × JVal) → String
  | [] => ""
  | [(k, v)] => "'" ++ k ++ "': " ++ pyRepr v
  | (k, v) :: kvs => "'" ++ k ++ "': " ++ pyRepr v ++ ", " ++ pyReprKvs kvs

end

/-- Python `str(v)`, as interpolated by the source's f-strings. -/
def pyStr (v : JVal) : String :=
  match v with
  | .str s => s
  | v => pyRepr v

/-! ### JSON parsing: model of `json.loads` -/

/-- Whitespace skipped between JSON tokens (as in Python's json module). -/
def isJsonWs (c : Char) : Bool := c = ' ' || c = '\t' || c = '\n' || c = '\r'

def skipWs : List Char → List Char
  | [] => []
  | c :: cs => if isJsonWs c then skipWs cs else c :: cs

def hexVal (c : Char) : Option Nat :=
  if '0' ≤ c ∧ c ≤ '9' then some (c.toNat - 48)
  else if 'a' ≤ c ∧ c ≤ 'f' then some (c.toNat - 87)
  else if 'A' ≤ c ∧ c ≤ 'F' then some (c.toNat - 55)
  else none

/-- Parse the body of a JSON string (opening quote already consumed). -/
def parseStr : Nat → List Char → List Char → Option (String × List Char)
  | 0, _, _ => none
  | _ + 1, [], _ => none
  | _ + 1, '"' :: rest, acc => some (String.mk acc.reverse, rest)
  | fuel + 1, '\\' :: rest, acc =>
    match rest with
    | '"' :: r => parseStr fuel r ('"' :: acc)
    | '\\' :: r => parseStr fuel r ('\\' :: acc)
    | '/' :: r => parseStr fuel r ('/' :: acc)
    | 'b' :: r => parseStr fuel r ('\x08' :: acc)
    | 'f' :: r => parseStr fuel r ('\x0c' :: acc)
    | 'n' :: r => parseStr fuel r ('\n' :: acc)
    | 'r' :: r => parseStr fuel r ('\r' :: acc)
    | 't' :: r => parseStr fuel r ('\t' :: acc)
    | 'u' :: h1 :: h2 :: h3 :: h4 :: r =>
      match hexVal h1, hexVal h2, hexVal h3, hexVal h4 with
      | some a, some b, some c, some d =>
        parseStr fuel r (Char.ofNat (((a * 16 + b) * 16 + c) * 16 + d) :: acc)
      | _, _, _, _ => none
    | _ => none
  | fuel + 1, c :: rest, acc =>
    if c.toNat < 0x20 then none else parseStr fuel rest (c :: acc)

def spanDigits : List Char → List Char × List Char
  | [] => ([], [])
  | c :: rest =>
    if c.isDigit then
      let p := spanDigits rest
      (c :: p.1, p.2)
    else ([], c :: rest)

def digitsToNat (ds : List Char) : Nat :=
  ds.foldl (fun a c => a * 10 + (c.toNat - 48)) 0

/-- Parse the optional exponent part; returns its lexeme. -/
def parseExp (cs : List Char) : Option (List Char × List Char) :=
  match cs with
  | 'e' :: rest => parseExpSign 'e' rest
  | 'E' :: rest => parseExpSign 'E' rest
  | _ => some ([], cs)
where
  parseExpSign (e : Char) (cs : List Char) : Option (List Char × List Char) :=
    match cs with
    | '+' :: r =>
      let p := spanDigits r
      if p.1 = [] then none else some (e :: '+' :: p.1, p.2)
    | '-' :: r =>
      let p := spanDigits r
      if p.1 = [] then none else some (e :: '-' :: p.1, p.2)
    | r =>
      let p := spanDigits r
      if p.1 = [] then none else some (e :: p.1, p.2)

/-- Parse a JSON number starting at `cs0` (Python: ints exact, otherwise a
float literal whose lexeme we keep). -/
def parseNumber (cs0 : List Char) : Option (JVal × List Char) :=
  let signed := match cs0 with
    | '-' :: r => (true, r)
    | _ => (false, cs0)
  match signed.2 with
  | [] => none
  | c :: _ =>
    if c.isDigit then
      let ip : List Char × List Char :=
        if c = '0' then (['0'], signed.2.tail) else spanDigits signed.2
      match ip.2 with
      | '.' :: r =>
        let fp := spanDigits r
        if fp.1 = [] then none
        else
          match parseExp fp.2 with
          | some (el, rest) =>
            some (.numF (String.mk ((if signed.1 then ['-'] else []) ++ ip.1 ++ '.' :: fp.1 ++ el)), rest)
          | none => none
      | 'e' :: _ =>
        match parseExp ip.2 with
        | some (el, rest) =>
          some (.numF (String.mk ((if signed.1 then ['-'] else []) ++ ip.1 ++ el)), rest)
        | none => none
      | 'E' :: _ =>
        match parseExp ip.2 with
        | some (el, rest) =>
          some (.numF (String.mk ((if signed.1 then ['-'] else []) ++ ip.1 ++ el)), rest)
        | none => none
      | rest =>
        let n : Int := Int.ofNat (digitsToNat ip.1)
        some (.num (if signed.1 then -n else n), rest)
    else none

/-- Insert-or-replace on an ordered association list: Python dict assignment
(`d[k] = v` keeps the position of an existing key, appends a new one). -/
def objSet (kvs : List (String × JVal)) (k : String) (v : JVal) : List (String × JVal) :=
  match kvs with
  | [] => [(k, v)]
  | (k', v') :: rest => if k' = k then (k, v) :: rest else (k', v') :: objSet rest k v

/-- First-match lookup in an ordered association list (Python dict lookup;
keys are unique in any dict the module builds). -/
def objGet (kvs : List (String × JVal)) (k : String) : Option JVal :=
  match kvs with
  | [] => none
  | (k', v) :: rest => if k' = k then some v else objGet rest k

mutual

def parseVal : Nat → List Char → Option (JVal × List Char)
  | 0, _ => none
  | fuel + 1, cs0 =>
    match skipWs cs0 with
    | [] => none
    | '"' :: rest =>
      match parseStr (rest.length + 1) rest [] with
      | some (s, r) => some (.str s, r)
      | none => none
    | '\x7b' :: rest => parseObjBody fuel rest []
    | '[' :: rest => parseArrBody fuel rest []
    | 't' :: 'r' :: 'u' :: 'e' :: rest => some (.bool true, rest)
    | 'f' :: 'a' :: 'l' :: 's' :: 'e' :: rest => some (.bool false, rest)
    | 'n' :: 'u' :: 'l' :: 'l' :: rest => some (.null, rest)
    | 'N' :: 'a' :: 'N' :: rest => some (.numF "nan", rest)
    | 'I' :: 'n' :: 'f' :: 'i' :: 'n' :: 'i' :: 't' :: 'y' :: rest => some (.numF "inf", rest)
    | '-' :: 'I' :: 'n' :: 'f' :: 'i' :: 'n' :: 'i' :: 't' :: 'y' :: rest =>
      some (.numF "-inf", rest)
    | cs => parseNumber cs

/-- Array items after `[` (first call) or after a `,`. -/
def parseArrBody : Nat → List Char → List JVal → Option (JVal × List Char)
  | 0, _, _ => none
  | fuel + 1, cs, acc =>
    match skipWs cs with
    | ']' :: rest => if acc.isEmpty then some (.arr [], rest) else none
    | cs' =>
      match parseVal fuel cs' with
      | none => none
      | some (v, r) =>
        match skipWs r with
        | ',' :: r' => parseArrBody fuel r' (acc ++ [v])
        | ']' :: r' => some (.arr (acc ++ [v]), r')
        | _ => none

/-- Object members after the opening brace (first call) or after a `,`. -/
def parseObjBody : Nat → List Char → List (String × JVal) → Option (JVal × List Char)
  | 0, _, _ => none
  | fuel + 1, cs, acc =>
    match skipWs cs with
    | '\x7d' :: rest => if acc.isEmpty then some (.obj [], rest) else none
    | '"' :: rest =>
      match parseStr (rest.length + 1) rest [] with
      | none => none
      | some (k, r) =>
        match skipWs r with
        | ':' :: r' =>
          match parseVal fuel r' with
          | none => none
          | some (v, r'') =>
            match skipWs r'' with
            | ',' :: r3 => parseObjBody fuel r3 (objSet acc k v)
            | '\x7d' :: r3 => some (.obj (objSet acc k v), r3)
            | _ => none
        | _ => none
    | _ => none

end

/-- Model of `json.loads`: parse one JSON document, require the whole input to
be consumed, `none` = `json.JSONDecodeError`. -/
def jsonParse (s : String) : Option JVal :=
  match parseVal (2 * s.length + 8) s.data with
  | some (v, rest) => if skipWs rest = [] then some v else none
  | none => none

/-! ### Python dynamic operations used by the module -/

/-- Does `hay` start with `needle`? -/
def prefixMatches : List Char → List Char → Bool
  | [], _ => true
  | _ :: _, [] => false
  | a :: as, b :: bs => a = b && prefixMatches as bs

def substrSearch (needle : List Char) : List Char → Bool
  | [] => prefixMatches needle []
  | c :: rest => prefixMatches needle (c :: rest) || substrSearch needle rest

/-- Substring test (Python `needle in someString`). -/
def isSubstrOf (needle hay : String) : Bool := substrSearch needle.data hay.data

/-- Python `key in v` for a string key: key test on dicts, substring test on
strings, membership on lists, `TypeError` otherwise. -/
def pyContains (key : String) : JVal → Except String Bool
  | .obj kvs => .ok ((objGet kvs key).isSome)
  | .str s => .ok (isSubstrOf key s)
  | .arr xs => .ok (xs.any (fun x => jvalBeq x (.str key)))
  | _ => .error "TypeError"

/-- Python `v[key]` for a string key. -/
def pyGetItem (v : JVal) (key : String) : Except String JVal :=
  match v with
  | .obj kvs =>
    match objGet kvs key with
    | some x => .ok x
    | none => .error "KeyError"
  | _ => .error "TypeError"

/-- Python `v[key] = x` for a string key. -/
def pySetItem (v : JVal) (key : String) (x : JVal) : Except String JVal :=
  match v with
  | .obj kvs => .ok (.obj (objSet kvs key x))
  | _ => .error "TypeError"

/-- Python `len(v)`. -/
def pyLen : JVal → Except String Nat
  | .arr xs => .ok xs.length
  | .str s => .ok s.length
  | .obj kvs => .ok kvs.length
  | _ => .error "TypeError"

/-- Python `v[0]` (an integer index). -/
def pyIndex0 : JVal → Except String JVal
  | .arr [] => .error "IndexError"
  | .arr (x :: _) => .ok x
  | .str s =>
    match s.data with
    | [] => .error "IndexError"
    | c :: _ => .ok (.str (String.mk [c]))
  | .obj _ => .error "KeyError"
  | _ => .error "TypeError"

/-- Python `v.get(key, dflt)` (`dict.get`; anything else lacks the attribute). -/
def dictGet (v : JVal) (key : String) (dflt : JVal) : Except String JVal :=
  match v with
  | .obj kvs =>
    match objGet kvs key with
    | some x => .ok x
    | none => .ok dflt
  | _ => .error "AttributeError"

/-! ### Configuration constants (source lines 10-23) -/

def DEFAULT_MODEL : String := "openai/gpt-oss-120b:free"

def STATIC_MODELS : List String :=
  [ "moonshotai/kimi-k2",
    "deepseek/deepseek-chat-v3.1",
    "qwen/qwen3-coder",
    "openai/gpt-oss-120b",
    "openai/gpt-oss-20b",
    "openchat/openchat-7b",
    "openai/gpt-5",
    "mistralai/mistral-7b-instruct",
    "deepseek/deepseek-chat-v3.1:free",
    "openai/gpt-oss-120b:free" ]

def STREAM_ENABLED : Bool := true

/-! ### The external world and the side-channel transport -/

/-- Payloads the module pushes to the side channel: a state snapshot
(`{"state": ...}`) or an output chunk (`{"output": ...}`). -/
inductive Payload where
  | stateP (v : JVal)
  | outP (s : String)

/-- Observable side-channel events of one turn. -/
inductive Ev where
  | connected
  | connectFail
  | sent (p : Payload)
  | sendFail
  | closed

/-- Upstream HTTP outcome: `fail msg` models a `requests` exception raised by
`requests.post` or `raise_for_status` (message `msg`); `ok lines` models a
2xx streaming response whose body `iter_lines` yields as `lines`. -/
inductive Upstream where
  | fail (msg : String)
  | ok (lines : List String)

/-- The nondeterministic environment of one call. -/
structure Net where
  connectOk : Bool
  sends : List Bool
  upstream : Upstream

/-- The caller's input bag, restricted to the keys the module reads.
`input` is the value of `args.get("input", "")` after `str()` (so a string);
`state` is the raw `args.get("state", ...)` value (absent = `none`);
`streamHost` is `args.get("STREAM_HOST", "")`; `streamPort` is the result of
`int(args.get("STREAM_PORT", "0"))` (assumed to convert). -/
structure Args where
  input : Option String
  state : Option JVal
  streamHost : String
  streamPort : Int

/-- The local socket state threaded through a turn: whether `sock` is an open
socket (`false` = Python `None`), the pending `sendall` outcomes, and the
event trace so far. -/
structure SCState where
  sock : Bool
  sends : List Bool
  tr : List Ev

/-- The module's return value `{"output", "streaming", "state"}`. -/
structure ChatRes where
  output : String
  streaming : Bool
  state : JVal

/-- Either a normal return or an uncaught Python exception (labelled by the
exception class). -/
inductive Outcome where
  | ok (r : ChatRes)
  | exn (e : String)

/-- `_open_socket` (source lines 46-53): `None` when host/port unconfigured;
otherwise `connect` either succeeds or raises (`refused`). -/
inductive OpenRes where
  | opened (sc : SCState)
  | refused (tr : List Ev)

def openSocket (host : String) (port : Int) (net : Net) : OpenRes :=
  if pyStrip host = "" ∨ port = 0 then .opened ⟨false, net.sends, []⟩
  else if net.connectOk then .opened ⟨true, net.sends, [.connected]⟩
  else .refused [.connectFail]

/-- `_send` (source lines 61-65): no-op on `None`, otherwise one `sendall`
whose outcome is the next entry of `sends` (exhausted list: success).
Returns whether the send succeeded (failure = `sendall` raised `OSError`). -/
def doSend (sc : SCState) (p : Payload) : Bool × SCState :=
  if sc.sock then
    match sc.sends with
    | [] => (true, ⟨sc.sock, [], sc.tr ++ [.sent p]⟩)
    | b :: rest =>
      if b then (true, ⟨sc.sock, rest, sc.tr ++ [.sent p]⟩)
      else (false, ⟨sc.sock, rest, sc.tr ++ [.sendFail]⟩)
  else (true, sc)

/-- Fuel-based 10-character slicing; the fuel (`cs.length` at the top call)
bounds the number of slices. -/
def chunkAux : Nat → List Char → List String
  | _, [] => []
  | 0, _ :: _ => []
  | fuel + 1, c :: rest => String.mk ((c :: rest).take 10) :: chunkAux fuel ((c :: rest).drop 10)

/-- The 10-character slicing of `_stream_text` (source line 78, by code
points, as Python string slicing). -/
def chunkList (cs : List Char) : List String := chunkAux cs.length cs

def sendChunks (sc : SCState) : List String → Bool × SCState
  | [] => (true, sc)
  | c :: rest =>
    match doSend sc (.outP c) with
    | (true, sc') => sendChunks sc' rest
    | (false, sc') => (false, sc')

/-- `_stream_text` (source lines 67-81): send the text in 10-character slices,
stopping at (and propagating) the first `sendall` failure.  The `isinstance`
bytes branch is dead (all call sites pass `str`), `time.sleep` is unmodelled. -/
def doStreamText (sc : SCState) (text : String) : Bool × SCState :=
  sendChunks sc (chunkList text.data)

/-- `_close_socket` (source lines 55-59): `close` with every exception
swallowed (including the `AttributeError` when `sock` is `None`). -/
def doClose (sc : SCState) : SCState :=
  if sc.sock then ⟨sc.sock, sc.sends, sc.tr ++ [.closed]⟩ else sc

/-! ### The stream decoder loop (source lines 197-215) -/

/-- What one body line contributes: nothing, loop break on the `[DONE]`
sentinel, a content delta, or an uncaught-in-the-loop Python exception. -/
inductive LineAct where
  | skip
  | stop
  | delta (s : String)
  | exn (e : String)

/-- The per-line body of the streaming loop (source lines 198-215): skip empty
lines and lines without the `data: ` marker, break on `[DONE]`, `continue` on
a JSON decode failure, then the `choices/delta/content` extraction with
Python's dynamic-typing failure modes. -/
def procLine (line : String) : LineAct :=
  if line = "" then .skip
  else if !(hasDataMarker line) then .skip
  else
    let dataStr := String.mk (line.data.drop 6)
    if dataStr = "[DONE]" then .stop
    else
      match jsonParse dataStr with
      | none => .skip
      | some v =>
        match pyContains "choices" v with
        | .error e => .exn e
        | .ok false => .skip
        | .ok true =>
          match pyGetItem v "choices" with
          | .error e => .exn e
          | .ok ch =>
            match pyLen ch with
            | .error e => .exn e
            | .ok n =>
              if n = 0 then .skip
              else
                match pyIndex0 ch with
                | .error e => .exn e
                | .ok c0 =>
                  match dictGet c0 "delta" (.obj []) with
                  | .error e => .exn e
                  | .ok dl =>
                    match pyContains "content" dl with
                    | .error e => .exn e
                    | .ok false => .skip
                    | .ok true =>
                      match pyGetItem dl "content" with
                      | .error e => .exn e
                      | .ok (.str s) => .delta s
                      | .ok _ => .exn "TypeError"

/-- Result of the streaming loop: normal completion with the accumulated
`full_text`, or a Python exception escaping the loop (to be caught by the
handlers at source lines 233-240). -/
inductive LoopRes where
  | done (full : String) (sc : SCState)
  | exnr (e : String) (sc : SCState)

/-- The `for line in response.iter_lines(...)` loop (source lines 197-215):
accumulate each delta into `full_text` and push it to the side channel. -/
def runLines (ls : List String) (acc : String) (sc : SCState) : LoopRes :=
  match ls with
  | [] => .done acc sc
  | l :: rest =>
    match procLine l with
    | .skip => runLines rest acc sc
    | .stop => .done acc sc
    | .exn e => .exnr e sc
    | .delta s =>
      match doSend sc (.outP s) with
      | (true, sc') => runLines rest (acc ++ s) sc'
      | (false, sc') => .exnr "OSError" sc'

/-- The side-channel-free shadow of `runLines`: the deltas the loop emits (in
order) and, when the decoding itself raises, the exception label. -/
def pureLoop (ls : List String) : List String × Option String :=
  match ls with
  | [] => ([], none)
  | l :: rest =>
    match procLine l with
    | .skip => pureLoop rest
    | .stop => ([], none)
    | .exn e => ([], some e)
    | .delta s =>
      let p := pureLoop rest
      (s :: p.1, p.2)

/-! ### The turn orchestrator `chat` (source lines 87-245) -/

/-- State-bag normalisation (source lines 89-98): a string is JSON-decoded
(decode failure = empty dict), a dict is shallow-copied, anything else
becomes the empty dict. -/
def mkStatePayload : Option JVal → JVal
  | none => .obj []
  | some (.str s) => (jsonParse s).getD (.obj [])
  | some (.obj kvs) => .obj kvs
  | some _ => .obj []

/-- Field defaulting (source lines 100-104): insert `model`/`history` when the
respective key test succeeds negatively; the key test and the item assignment
carry Python's dynamic failure modes for non-dict payloads. -/
def defaultState (sp : JVal) : Except String JVal :=
  match pyContains "model" sp with
  | .error e => .error e
  | .ok hasModel =>
    match (if hasModel then .ok sp else pySetItem sp "model" (.str DEFAULT_MODEL) :
        Except String JVal) with
    | .error e => .error e
    | .ok sp1 =>
      match pyContains "history" sp1 with
      | .error e => .error e
      | .ok hasHistory =>
        if hasHistory then .ok sp1 else pySetItem sp1 "history" (.arr [])

/-- The usage banner (source lines 110-114). -/
def usageMsg : String :=
  "Welcome to the assistant.\n" ++
  "Type @ to list curated models.\n" ++
  "Type @<prefix> to select one (default: " ++ DEFAULT_MODEL ++ ").\n"

/-- A `{"role": ..., "content": ...}` message dict. -/
def msgObj (role content : String) : JVal :=
  .obj [("role", .str role), ("content", .str content)]

/-- The command-path emission sequence (source lines 126-131 and its three
repetitions): state snapshot, then the output in slices, then close; a
`sendall` failure raises before `_close_socket` is reached. -/
def emitAndReturn (sp : JVal) (output : String) (sc : SCState) : Outcome × List Ev :=
  match doSend sc (.stateP sp) with
  | (false, sc1) => (.exn "OSError", sc1.tr)
  | (true, sc1) =>
    match doStreamText sc1 output with
    | (false, sc2) => (.exn "OSError", sc2.tr)
    | (true, sc2) => (.ok ⟨output, STREAM_ENABLED, sp⟩, (doClose sc2).tr)

/-- The exception handlers plus `finally` (source lines 233-245): stream the
error text best-effort, always close, return the error text as output; a
`sendall` failure inside the handler escapes `chat` (after the `finally`). -/
def handleErrPath (sp : JVal) (fullText : String) (sc : SCState) : Outcome × List Ev :=
  match doStreamText sc fullText with
  | (true, sc') => (.ok ⟨fullText, STREAM_ENABLED, sp⟩, (doClose sc').tr)
  | (false, sc') => (.exn "OSError", (doClose sc').tr)

/-- The `@`-command dispatch once the socket is open (source lines 121-166). -/
def commandBody (sp : JVal) (userInp : String) (sc : SCState) : Outcome × List Ev :=
  if userInp = "@" then
      match pyGetItem sp "model" with
      | .error e => (.exn e, sc.tr)
      | .ok mv =>
        emitAndReturn sp
          ("Available models:\n" ++ sepJoin "\n" STATIC_MODELS ++
            "\n\nCurrent model: " ++ pyStr mv) sc
    else
      let pfx := pyLower (strTail userInp)
      let matched := STATIC_MODELS.filter (fun m => pyLower m = pfx)
      if matched.isEmpty then
        match pyGetItem sp "model" with
        | .error e => (.exn e, sc.tr)
        | .ok mv =>
          emitAndReturn sp
            ("No model found with prefix '" ++ pfx ++ "'. Current model remains: " ++
              pyStr mv) sc
      else if matched.length > 1 then
        emitAndReturn sp
          ("Multiple models match prefix '" ++ pfx ++ "':\n" ++
            sepJoin "\n" matched) sc
      else
        match matched with
        | [] => (.exn "IndexError", sc.tr)
        | m :: _ =>
          match pySetItem sp "model" (.str m) with
          | .error e => (.exn e, sc.tr)
          | .ok sp' => emitAndReturn sp' ("Model updated to: " ++ m) sc

/-- The `@`-command path (source lines 117-166): open the socket (uncaught on
failure) and run the command dispatch. -/
def commandPath (sp : JVal) (userInp host : String) (port : Int) (net : Net) :
    Outcome × List Ev :=
  match openSocket host port net with
  | .refused tr => (.exn "ConnectionRefusedError", tr)
  | .opened sc => commandBody sp userInp sc

/-- The chat-path request/response phase (source lines 184-245, streaming
arm): push the state snapshot (outside the `try`), run the request, decode,
update history on success, and always close once the `try` block is entered. -/
def chatBody (sp : JVal) (messages : List JVal) (upstream : Upstream) (sc : SCState) :
    Outcome × List Ev :=
  match doSend sc (.stateP sp) with
  | (false, sc1) => (.exn "OSError", sc1.tr)
  | (true, sc1) =>
    match upstream with
    | .fail msg => handleErrPath sp ("API request failed: " ++ msg) sc1
    | .ok ls =>
      match runLines ls "" sc1 with
      | .exnr e sc2 => handleErrPath sp ("An error occurred: " ++ e) sc2
      | .done full sc2 =>
        match pySetItem sp "history" (.arr (messages ++ [msgObj "assistant" full])) with
        | .error e => handleErrPath sp ("An error occurred: " ++ e) sc2
        | .ok sp' => (.ok ⟨full, STREAM_ENABLED, sp'⟩, (doClose sc2).tr)

/-- The chat path (source lines 168-245, streaming arm): build the working
message list (raising on a non-list history), open the socket (uncaught on
failure), and run the request/response phase. -/
def chatPath (sp : JVal) (userInp host : String) (port : Int) (net : Net) :
    Outcome × List Ev :=
  match pyGetItem sp "history" with
  | .error e => (.exn e, [])
  | .ok histV =>
    match histV with
    | .arr h0 =>
      match openSocket host port net with
      | .refused tr => (.exn "ConnectionRefusedError", tr)
      | .opened sc => chatBody sp (h0 ++ [msgObj "user" userInp]) net.upstream sc
    | _ => (.exn "AttributeError", [])

/-- Input dispatch (source lines 106-168): empty input, `@`-command, or chat. -/
def dispatch (sp : JVal) (userInp host : String) (port : Int) (net : Net) :
    Outcome × List Ev :=
  if userInp = "" then (.ok ⟨usageMsg, true, sp⟩, [])
  else if startsWithAmp userInp then commandPath sp userInp host port net
  else chatPath sp userInp host port net

/-- `chat` after the state bag has been normalised. -/
def chatCore (sp0 : JVal) (inp host : String) (port : Int) (net : Net) :
    Outcome × List Ev :=
  match defaultState sp0 with
  | .error e => (.exn e, [])
  | .ok sp => dispatch sp (pyStrip inp) host port net

/-- The entry point `chat(args)` (source lines 87-245), returning the outcome
together with the side-channel event trace of the turn. -/
def chat (args : Args) (net : Net) : Outcome × List Ev :=
  chatCore (mkStatePayload args.state) (args.input.getD "") args.streamHost
    args.streamPort net

/-! ### Small derived notions used by the claim statements -/

/-- Concatenation in emission order. -/
def strJoin : List String → String
  | [] => ""
  | s :: rest => s ++ strJoin rest

/-- The successfully sent `{"output": chunk}` payloads of a trace, in order. -/
def sentOutputs (tr : List Ev) : List String :=
  tr.filterMap (fun e =>
    match e with
    | .sent (.outP s) => some s
    | _ => none)

/-- Whether an outcome is a normal return. -/
def isOk : Outcome → Bool
  | .ok _ => true
  | .exn _ => false

/-- The `output` field of a normal return (and `""` of an exception). -/
def outputOf : Outcome → String
  | .ok r => r.output
  | .exn _ => ""

/-- The `state` field of a normal return (and `null` of an exception). -/
def stateOf : Outcome → JVal
  | .ok r => r.state
  | .exn _ => .null

/-- The world in which every attempted side-channel operation succeeds. -/
def netOk (net : Net) : Prop := net.connectOk = true ∧ net.sends = []

/-- History extension: the new state's history is the old one unchanged, or
the old one (a list) with messages appended. -/
def histExtends (spOld spNew : JVal) : Prop :=
  pyGetItem spNew "history" = pyGetItem spOld "history" ∨
  ∃ h0 tl, pyGetItem spOld "history" = .ok (.arr h0) ∧
    pyGetItem spNew "history" = .ok (.arr (h0 ++ tl))

/-- The model of the state is a non-empty string. -/
def nonEmptyStrModel (sp : JVal) : Prop :=
  ∃ m, pyGetItem sp "model" = .ok (.str m) ∧ m ≠ ""

/-- The trace contribution of successfully sending `ds` as output payloads
over a socket that is `sock`. -/
def outEvts (sock : Bool) (ds : List String) : List Ev :=
  if sock then ds.map (fun s => Ev.sent (.outP s)) else []

/-- The socket state a loop run ends in. -/
def scOf : LoopRes → SCState
  | .done _ sc => sc
  | .exnr _ sc => sc

/-! ## Lemmas about the association-list operations -/

theorem objGet_objSet_same (kvs : List (String × JVal)) (k : String) (v : JVal) :
    objGet (objSet kvs k v) k = some v := by
  induction kvs with
  | nil => simp [objSet, objGet]
  | cons kv rest ih =>
    obtain ⟨k', v'⟩ := kv
    by_cases h : k' = k
    · simp [objSet, h, objGet]
    · simp [objSet, h, objGet, ih]

theorem objGet_objSet_other (kvs : List (String × JVal)) (k k' : String) (v : JVal)
    (h : k' ≠ k) : objGet (objSet kvs k v) k' = objGet kvs k' := by
  induction kvs with
  | nil => simp [objSet, objGet, Ne.symm h]
  | cons kv rest ih =>
    obtain ⟨k0, v0⟩ := kv
    by_cases hk : k0 = k
    · subst hk
      simp [objSet, objGet, Ne.symm h]
    · by_cases hk' : k0 = k'
      · subst hk'
        simp [objSet, hk, objGet, h]
      · simp [objSet, hk, objGet, hk', ih]

theorem pyGetItem_objSet_same (kvs : List (String × JVal)) (k : String) (v : JVal) :
    pyGetItem (.obj (objSet kvs k v)) k = .ok v := by
  simp [pyGetItem, objGet_objSet_same]

theorem pyGetItem_objSet_other (kvs : List (String × JVal)) (k k' : String) (v : JVal)
    (h : k' ≠ k) : pyGetItem (.obj (objSet kvs k v)) k' = pyGetItem (.obj kvs) k' := by
  simp [pyGetItem, objGet_objSet_other kvs k k' v h]

/-! ## Lemmas about the side-channel operations -/

theorem doSend_sock (sc : SCState) (p : Payload) : ((doSend sc p).2).sock = sc.sock := by
  obtain ⟨sock, sends, tr⟩ := sc
  cases sock
  · simp [doSend]
  · cases sends with
    | nil => simp [doSend]
    | cons b rest => cases b <;> simp [doSend]

theorem doSend_false (sc : SCState) (p : Payload) (h : sc.sock = false) :
    doSend sc p = (true, sc) := by
  unfold doSend
  simp [h]

theorem doSend_nil (sock : Bool) (tr : List Ev) (p : Payload) :
    doSend ⟨sock, [], tr⟩ p = (true, ⟨sock, [], tr ++ (if sock then [Ev.sent p] else [])⟩) := by
  cases sock <;> simp [doSend]

theorem sendChunks_sock (cs : List String) : ∀ sc : SCState,
    ((sendChunks sc cs).2).sock = sc.sock := by
  induction cs with
  | nil => intro sc; simp [sendChunks]
  | cons c rest ih =>
    intro sc
    have hds := doSend_sock sc (.outP c)
    unfold sendChunks
    cases hd : doSend sc (.outP c) with
    | mk b sc' =>
      rw [hd] at hds
      cases b
      · simpa using hds
      · simpa [ih sc'] using hds

theorem sendChunks_false (cs : List String) : ∀ sc : SCState, sc.sock = false →
    sendChunks sc cs = (true, sc) := by
  induction cs with
  | nil => intro sc h; simp [sendChunks]
  | cons c rest ih =>
    intro sc h
    unfold sendChunks
    rw [doSend_false sc _ h]
    exact ih sc h

theorem sendChunks_nil (cs : List String) : ∀ (sock : Bool) (tr : List Ev),
    sendChunks ⟨sock, [], tr⟩ cs = (true, ⟨sock, [], tr ++ outEvts sock cs⟩) := by
  induction cs with
  | nil => intro sock tr; simp [sendChunks, outEvts]
  | cons c rest ih =>
    intro sock tr
    unfold sendChunks
    rw [doSend_nil]
    show sendChunks ⟨sock, [], tr ++ (if sock then [Ev.sent (.outP c)] else [])⟩ rest = _
    rw [ih]
    cases sock <;> simp [outEvts]

theorem doStreamText_sock (sc : SCState) (t : String) :
    ((doStreamText sc t).2).sock = sc.sock := sendChunks_sock _ _

theorem doStreamText_false (sc : SCState) (t : String) (h : sc.sock = false) :
    doStreamText sc t = (true, sc) := sendChunks_false _ _ h

theorem doStreamText_nil (sock : Bool) (tr : List Ev) (t : String) :
    doStreamText ⟨sock, [], tr⟩ t =
      (true, ⟨sock, [], tr ++ outEvts sock (chunkList t.data)⟩) :=
  sendChunks_nil _ _ _

theorem doClose_true (sc : SCState) (h : sc.sock = true) :
    doClose sc = ⟨sc.sock, sc.sends, sc.tr ++ [.closed]⟩ := by
  unfold doClose
  simp [h]

theorem doClose_false (sc : SCState) (h : sc.sock = false) : doClose sc = sc := by
  unfold doClose
  simp [h]

/-! ## Lemmas about the decoding loop -/

theorem runLines_cons (l : String) (ls : List String) (acc : String) (sc : SCState) :
    runLines (l :: ls) acc sc =
      (match procLine l with
       | .skip => runLines ls acc sc
       | .stop => .done acc sc
       | .exn e => .exnr e sc
       | .delta s =>
         match doSend sc (.outP s) with
         | (true, sc') => runLines ls (acc ++ s) sc'
         | (false, sc') => .exnr "OSError" sc') := rfl

theorem pureLoop_cons (l : String) (ls : List String) :
    pureLoop (l :: ls) =
      (match procLine l with
       | .skip => pureLoop ls
       | .stop => ([], none)
       | .exn e => ([], some e)
       | .delta s =>
         let p := pureLoop ls
         (s :: p.1, p.2)) := rfl

theorem runLines_sock (ls : List String) : ∀ (acc : String) (sc : SCState),
    (scOf (runLines ls acc sc)).sock = sc.sock := by
  induction ls with
  | nil => intro acc sc; simp [runLines, scOf]
  | cons l rest ih =>
    intro acc sc
    rw [runLines_cons]
    cases procLine l with
    | skip => exact ih acc sc
    | stop => simp [scOf]
    | exn e => simp [scOf]
    | delta s =>
      have hds := doSend_sock sc (.outP s)
      dsimp only
      rcases hd : doSend sc (.outP s) with ⟨b, sc'⟩
      rw [hd] at hds
      cases b
      · simpa [scOf] using hds
      · simpa [ih (acc ++ s) sc'] using hds

theorem runLines_false (ls : List String) : ∀ (acc : String) (sc : SCState), sc.sock = false →
    runLines ls acc sc =
      (match pureLoop ls with
       | (ds, none) => .done (acc ++ strJoin ds) sc
       | (_, some e) => .exnr e sc) := by
  induction ls with
  | nil => intro acc sc h; simp [runLines, pureLoop, strJoin]
  | cons l rest ih =>
    intro acc sc h
    rw [runLines_cons, pureLoop_cons]
    cases hp : procLine l with
    | skip => exact ih acc sc h
    | stop => simp [strJoin]
    | exn e => simp
    | delta s =>
      dsimp only
      rw [doSend_false sc _ h]
      show runLines rest (acc ++ s) sc = _
      rw [ih (acc ++ s) sc h]
      cases hpl : pureLoop rest with
      | mk ds r => cases r <;> simp [hpl, strJoin, String.append_assoc]

theorem runLines_nil (ls : List String) : ∀ (acc : String) (sock : Bool) (tr : List Ev),
    runLines ls acc ⟨sock, [], tr⟩ =
      (match pureLoop ls with
       | (ds, none) => .done (acc ++ strJoin ds) ⟨sock, [], tr ++ outEvts sock ds⟩
       | (ds, some e) => .exnr e ⟨sock, [], tr ++ outEvts sock ds⟩) := by
  induction ls with
  | nil =>
    intro acc sock tr
    cases sock <;> simp [runLines, pureLoop, strJoin, outEvts]
  | cons l rest ih =>
    intro acc sock tr
    rw [runLines_cons, pureLoop_cons]
    cases hp : procLine l with
    | skip => exact ih acc sock tr
    | stop => cases sock <;> simp [strJoin, outEvts]
    | exn e => cases sock <;> simp [outEvts]
    | delta s =>
      dsimp only
      rw [doSend_nil]
      show runLines rest (acc ++ s)
          ⟨sock, [], tr ++ (if sock then [Ev.sent (.outP s)] else [])⟩ = _
      rw [ih]
      cases hpl : pureLoop rest with
      | mk ds r =>
        cases r with
        | none => cases sock <;> simp [outEvts, strJoin, String.append_assoc]
        | some e => cases sock <;> simp [outEvts, strJoin]

/-! ## Lemmas about the emission helpers -/

theorem emitAndReturn_nil (sp : JVal) (o : String) (sock : Bool) (tr : List Ev) :
    emitAndReturn sp o ⟨sock, [], tr⟩ =
      (.ok ⟨o, true, sp⟩,
        if sock then
          tr ++ [Ev.sent (.stateP sp)] ++
            (chunkList o.data).map (fun c => Ev.sent (.outP c)) ++ [Ev.closed]
        else tr) := by
  cases sock <;>
    simp [emitAndReturn, doSend_nil, doStreamText_nil, doClose, outEvts, STREAM_ENABLED]

theorem emitAndReturn_false (sp : JVal) (o : String) (sc : SCState) (h : sc.sock = false) :
    emitAndReturn sp o sc = (.ok ⟨o, true, sp⟩, sc.tr) := by
  simp [emitAndReturn, doSend_false sc _ h, doStreamText_false sc o h, doClose_false sc h,
    STREAM_ENABLED]

theorem emitAndReturn_ok_inv (sp : JVal) (o : String) (sc : SCState) (r : ChatRes)
    (h : (emitAndReturn sp o sc).1 = .ok r) : r = ⟨o, true, sp⟩ := by
  unfold emitAndReturn at h
  cases h1 : doSend sc (.stateP sp) with
  | mk b sc1 =>
    rw [h1] at h
    cases b
    · simp at h
    · dsimp only at h
      cases h2 : doStreamText sc1 o with
      | mk b2 sc2 =>
        rw [h2] at h
        cases b2
        · simp at h
        · simp [STREAM_ENABLED] at h
          exact h.symm

theorem emitAndReturn_ok_closed (sp : JVal) (o : String) (sc : SCState) (hs : sc.sock = true)
    (h : isOk (emitAndReturn sp o sc).1 = true) :
    Ev.closed ∈ (emitAndReturn sp o sc).2 := by
  unfold emitAndReturn at h ⊢
  cases h1 : doSend sc (.stateP sp) with
  | mk b sc1 =>
    rw [h1] at h
    have hs1 : sc1.sock = true := by
      have hd := doSend_sock sc (.stateP sp)
      rw [h1] at hd
      rw [show sc1.sock = sc.sock from hd, hs]
    cases b
    · simp [isOk] at h
    · dsimp only at h ⊢
      cases h2 : doStreamText sc1 o with
      | mk b2 sc2 =>
        rw [h2] at h
        cases b2
        · simp [isOk] at h
        · have hd := doStreamText_sock sc1 o
          rw [h2] at hd
          have hs2 : sc2.sock = true := by rw [show sc2.sock = sc1.sock from hd, hs1]
          simp [doClose_true sc2 hs2]

theorem handleErrPath_nil (sp : JVal) (ft : String) (sock : Bool) (tr : List Ev) :
    handleErrPath sp ft ⟨sock, [], tr⟩ =
      (.ok ⟨ft, true, sp⟩,
        if sock then tr ++ (chunkList ft.data).map (fun c => Ev.sent (.outP c)) ++ [Ev.closed]
        else tr) := by
  cases sock <;> simp [handleErrPath, doStreamText_nil, doClose, outEvts, STREAM_ENABLED]

theorem handleErrPath_false (sp : JVal) (ft : String) (sc : SCState) (h : sc.sock = false) :
    handleErrPath sp ft sc = (.ok ⟨ft, true, sp⟩, sc.tr) := by
  simp [handleErrPath, doStreamText_false sc ft h, doClose_false sc h, STREAM_ENABLED]

theorem handleErrPath_ok_inv (sp : JVal) (ft : String) (sc : SCState) (r : ChatRes)
    (h : (handleErrPath sp ft sc).1 = .ok r) : r = ⟨ft, true, sp⟩ := by
  unfold handleErrPath at h
  cases h2 : doStreamText sc ft with
  | mk b2 sc2 =>
    rw [h2] at h
    cases b2
    · simp at h
    · simp [STREAM_ENABLED] at h
      exact h.symm

theorem handleErrPath_closed (sp : JVal) (ft : String) (sc : SCState) (hs : sc.sock = true) :
    Ev.closed ∈ (handleErrPath sp ft sc).2 := by
  unfold handleErrPath
  cases h2 : doStreamText sc ft with
  | mk b2 sc2 =>
    have hs2 : sc2.sock = true := by
      have hd := doStreamText_sock sc ft
      rw [h2] at hd
      simp at hd
      rw [hd, hs]
    cases b2 <;> simp [doClose_true sc2 hs2]

/-! ## Lemmas about socket opening -/

theorem openSocket_unconfigured (host : String) (port : Int) (net : Net)
    (h : pyStrip host = "" ∨ port = 0) :
    openSocket host port net = .opened ⟨false, net.sends, []⟩ := by
  simp [openSocket, h]

theorem openSocket_configured (host : String) (port : Int) (net : Net)
    (h1 : pyStrip host ≠ "") (h2 : port ≠ 0) (h3 : net.connectOk = true) :
    openSocket host port net = .opened ⟨true, net.sends, [.connected]⟩ := by
  simp [openSocket, h1, h2, h3]

theorem openSocket_ok (host : String) (port : Int) (net : Net) (hconn : net.connectOk = true) :
    ∃ sock0 tr0, openSocket host port net = .opened ⟨sock0, net.sends, tr0⟩ := by
  by_cases hcfg : pyStrip host = "" ∨ port = 0
  · exact ⟨false, [], openSocket_unconfigured host port net hcfg⟩
  · push_neg at hcfg
    exact ⟨true, [.connected], openSocket_configured host port net hcfg.1 hcfg.2 hconn⟩

theorem openSocket_opened_inv (host : String) (port : Int) (net : Net) (sc : SCState)
    (h : openSocket host port net = .opened sc) :
    (sc.sock = false ∧ sc.tr = []) ∨ (sc.sock = true ∧ sc.tr = [.connected]) := by
  unfold openSocket at h
  by_cases hcfg : pyStrip host = "" ∨ port = 0
  · rw [if_pos hcfg] at h
    simp at h
    rw [← h]
    exact Or.inl ⟨rfl, rfl⟩
  · rw [if_neg hcfg] at h
    by_cases hc : net.connectOk
    · rw [if_pos hc] at h
      simp at h
      rw [← h]
      exact Or.inr ⟨rfl, rfl⟩
    · rw [if_neg hc] at h
      simp at h

/-! ## Lemmas about item assignment -/

theorem pySetItem_ok_inv (v : JVal) (k : String) (x w : JVal) (h : pySetItem v k x = .ok w) :
    ∃ kvs, v = .obj kvs ∧ w = .obj (objSet kvs k x) := by
  cases v with
  | obj kvs =>
    simp [pySetItem] at h
    exact ⟨kvs, rfl, h.symm⟩
  | null => simp [pySetItem] at h
  | bool b => simp [pySetItem] at h
  | num n => simp [pySetItem] at h
  | numF l => simp [pySetItem] at h
  | str s => simp [pySetItem] at h
  | arr xs => simp [pySetItem] at h

/-! ## Shape lemmas for the command body -/

theorem commandBody_list (sp : JVal) (sc : SCState) :
    commandBody sp "@" sc =
      (match pyGetItem sp "model" with
       | .error e => (.exn e, sc.tr)
       | .ok mv =>
         emitAndReturn sp
           ("Available models:\n" ++ sepJoin "\n" STATIC_MODELS ++
             "\n\nCurrent model: " ++ pyStr mv) sc) := by
  unfold commandBody
  rw [if_pos rfl]

theorem commandBody_nomatch (sp : JVal) (u : String) (sc : SCState) (hu : u ≠ "@")
    (hml : STATIC_MODELS.filter (fun x => pyLower x = pyLower (strTail u)) = []) :
    commandBody sp u sc =
      (match pyGetItem sp "model" with
       | .error e => (.exn e, sc.tr)
       | .ok mv =>
         emitAndReturn sp
           ("No model found with prefix '" ++ pyLower (strTail u) ++
             "'. Current model remains: " ++ pyStr mv) sc) := by
  unfold commandBody
  rw [if_neg hu]
  dsimp only
  rw [hml]
  rfl

theorem commandBody_single (sp : JVal) (u : String) (sc : SCState) (m : String) (hu : u ≠ "@")
    (hml : STATIC_MODELS.filter (fun x => pyLower x = pyLower (strTail u)) = [m]) :
    commandBody sp u sc =
      (match pySetItem sp "model" (.str m) with
       | .error e => (.exn e, sc.tr)
       | .ok sp' => emitAndReturn sp' ("Model updated to: " ++ m) sc) := by
  unfold commandBody
  rw [if_neg hu]
  dsimp only
  rw [hml]
  rfl

theorem commandBody_multi (sp : JVal) (u : String) (sc : SCState) (m m2 : String)
    (rest2 : List String) (hu : u ≠ "@")
    (hml : STATIC_MODELS.filter (fun x => pyLower x = pyLower (strTail u)) = m :: m2 :: rest2) :
    commandBody sp u sc =
      emitAndReturn sp
        ("Multiple models match prefix '" ++ pyLower (strTail u) ++ "':\n" ++
          sepJoin "\n" (m :: m2 :: rest2)) sc := by
  unfold commandBody
  rw [if_neg hu]
  dsimp only
  rw [hml]
  rw [if_neg (by simp : ¬((m :: m2 :: rest2).isEmpty = true))]
  rw [if_pos (show (m :: m2 :: rest2).length > 1 by
    simp only [List.length_cons]
    omega)]

/-! ## Behaviour lemmas for the command body -/

theorem commandBody_false_tr (sp : JVal) (u : String) (sc : SCState) (h : sc.sock = false) :
    (commandBody sp u sc).2 = sc.tr := by
  by_cases hu : u = "@"
  · subst hu
    rw [commandBody_list]
    cases pyGetItem sp "model" with
    | error e => rfl
    | ok mv =>
      dsimp only
      rw [emitAndReturn_false _ _ _ h]
  · cases hml : STATIC_MODELS.filter (fun x => pyLower x = pyLower (strTail u)) with
    | nil =>
      rw [commandBody_nomatch sp u sc hu hml]
      cases pyGetItem sp "model" with
      | error e => rfl
      | ok mv =>
        dsimp only
        rw [emitAndReturn_false _ _ _ h]
    | cons m rest =>
      cases rest with
      | nil =>
        rw [commandBody_single sp u sc m hu hml]
        cases pySetItem sp "model" (.str m) with
        | error e => rfl
        | ok sp' =>
          dsimp only
          rw [emitAndReturn_false _ _ _ h]
      | cons m2 rest2 =>
        rw [commandBody_multi sp u sc m m2 rest2 hu hml]
        rw [emitAndReturn_false _ _ _ h]

theorem commandBody_ok_state (sp : JVal) (u : String) (sc : SCState) (r : ChatRes)
    (hok : (commandBody sp u sc).1 = .ok r) :
    r.state = sp ∨ ∃ kvs m, sp = .obj kvs ∧ m ∈ STATIC_MODELS ∧
      r.state = .obj (objSet kvs "model" (.str m)) := by
  by_cases hu : u = "@"
  · subst hu
    rw [commandBody_list] at hok
    revert hok
    cases pyGetItem sp "model" with
    | error e =>
      intro hok
      simp at hok
    | ok mv =>
      intro hok
      exact Or.inl (by rw [emitAndReturn_ok_inv _ _ _ _ hok])
  · cases hml : STATIC_MODELS.filter (fun x => pyLower x = pyLower (strTail u)) with
    | nil =>
      rw [commandBody_nomatch sp u sc hu hml] at hok
      revert hok
      cases pyGetItem sp "model" with
      | error e =>
        intro hok
        simp at hok
      | ok mv =>
        intro hok
        exact Or.inl (by rw [emitAndReturn_ok_inv _ _ _ _ hok])
    | cons m rest =>
      have hmem : m ∈ STATIC_MODELS := by
        have hmf : m ∈ STATIC_MODELS.filter (fun x => pyLower x = pyLower (strTail u)) := by
          rw [hml]
          exact List.mem_cons_self _ _
        exact (List.mem_filter.mp hmf).1
      cases rest with
      | nil =>
        rw [commandBody_single sp u sc m hu hml] at hok
        revert hok
        cases hset : pySetItem sp "model" (.str m) with
        | error e =>
          intro hok
          simp at hok
        | ok sp' =>
          intro hok
          have hr := emitAndReturn_ok_inv _ _ _ _ hok
          obtain ⟨kvs, hkvs, hsp'⟩ := pySetItem_ok_inv _ _ _ _ hset
          refine Or.inr ⟨kvs, m, hkvs, hmem, ?_⟩
          rw [hr, hsp']
      | cons m2 rest2 =>
        rw [commandBody_multi sp u sc m m2 rest2 hu hml] at hok
        exact Or.inl (by rw [emitAndReturn_ok_inv _ _ _ _ hok])

theorem commandBody_ok_closed (sp : JVal) (u : String) (sc : SCState) (hs : sc.sock = true)
    (hok : isOk (commandBody sp u sc).1 = true) :
    Ev.closed ∈ (commandBody sp u sc).2 := by
  by_cases hu : u = "@"
  · subst hu
    rw [commandBody_list] at hok ⊢
    revert hok
    cases pyGetItem sp "model" with
    | error e =>
      intro hok
      simp [isOk] at hok
    | ok mv =>
      intro hok
      exact emitAndReturn_ok_closed _ _ _ hs hok
  · cases hml : STATIC_MODELS.filter (fun x => pyLower x = pyLower (strTail u)) with
    | nil =>
      rw [commandBody_nomatch sp u sc hu hml] at hok ⊢
      revert hok
      cases pyGetItem sp "model" with
      | error e =>
        intro hok
        simp [isOk] at hok
      | ok mv =>
        intro hok
        exact emitAndReturn_ok_closed _ _ _ hs hok
    | cons m rest =>
      cases rest with
      | nil =>
        rw [commandBody_single sp u sc m hu hml] at hok ⊢
        revert hok
        cases pySetItem sp "model" (.str m) with
        | error e =>
          intro hok
          simp [isOk] at hok
        | ok sp' =>
          intro hok
          exact emitAndReturn_ok_closed _ _ _ hs hok
      | cons m2 rest2 =>
        rw [commandBody_multi sp u sc m m2 rest2 hu hml] at hok ⊢
        exact emitAndReturn_ok_closed _ _ _ hs hok

theorem commandBody_nil_isOk (kvs : List (String × JVal)) (u : String) (sc : SCState)
    (hsends : sc.sends = []) (mv : JVal) (hm : objGet kvs "model" = some mv) :
    isOk (commandBody (.obj kvs) u sc).1 = true := by
  obtain ⟨sock, sends, tr⟩ := sc
  dsimp only at hsends
  subst hsends
  have hget : pyGetItem (.obj kvs) "model" = .ok mv := by simp [pyGetItem, hm]
  by_cases hu : u = "@"
  · subst hu
    rw [commandBody_list, hget]
    dsimp only
    rw [emitAndReturn_nil]
    rfl
  · cases hml : STATIC_MODELS.filter (fun x => pyLower x = pyLower (strTail u)) with
    | nil =>
      rw [commandBody_nomatch _ u _ hu hml, hget]
      dsimp only
      rw [emitAndReturn_nil]
      rfl
    | cons m rest =>
      cases rest with
      | nil =>
        rw [commandBody_single _ u _ m hu hml]
        dsimp only [pySetItem]
        rw [emitAndReturn_nil]
        rfl
      | cons m2 rest2 =>
        rw [commandBody_multi _ u _ m m2 rest2 hu hml]
        rw [emitAndReturn_nil]
        rfl

/-! ## Behaviour lemmas for the chat body -/

theorem chatBody_false_tr (sp : JVal) (msgs : List JVal) (up : Upstream) (sc : SCState)
    (h : sc.sock = false) : (chatBody sp msgs up sc).2 = sc.tr := by
  unfold chatBody
  rw [doSend_false sc _ h]
  dsimp only
  cases up with
  | fail msg =>
    dsimp only
    rw [handleErrPath_false _ _ _ h]
  | ok ls =>
    dsimp only
    rw [runLines_false ls "" sc h]
    rcases hpl : pureLoop ls with ⟨ds, rr⟩
    cases rr with
    | some e =>
      dsimp only
      rw [handleErrPath_false _ _ _ h]
    | none =>
      dsimp only
      cases pySetItem sp "history" (.arr (msgs ++ [msgObj "assistant" ("" ++ strJoin ds)])) with
      | error e =>
        dsimp only
        rw [handleErrPath_false _ _ _ h]
      | ok sp' =>
        dsimp only
        rw [doClose_false _ h]

theorem chatBody_ok_state (sp : JVal) (msgs : List JVal) (up : Upstream) (sc : SCState)
    (r : ChatRes) (hok : (chatBody sp msgs up sc).1 = .ok r) :
    r.state = sp ∨ ∃ kvs full, sp = .obj kvs ∧
      r.state = .obj (objSet kvs "history" (.arr (msgs ++ [msgObj "assistant" full]))) := by
  unfold chatBody at hok
  revert hok
  rcases hd : doSend sc (.stateP sp) with ⟨b, sc1⟩
  cases b
  · intro hok
    simp at hok
  · dsimp only
    cases up with
    | fail msg =>
      dsimp only
      intro hok
      exact Or.inl (by rw [handleErrPath_ok_inv _ _ _ _ hok])
    | ok ls =>
      dsimp only
      rcases hr : runLines ls "" sc1 with ⟨full, sc2⟩ | ⟨e, sc2⟩
      · dsimp only
        cases hset : pySetItem sp "history" (.arr (msgs ++ [msgObj "assistant" full])) with
        | error e =>
          intro hok
          exact Or.inl (by rw [handleErrPath_ok_inv _ _ _ _ hok])
        | ok sp' =>
          intro hok
          simp [STREAM_ENABLED] at hok
          obtain ⟨kvs, hkvs, hsp'⟩ := pySetItem_ok_inv _ _ _ _ hset
          refine Or.inr ⟨kvs, full, hkvs, ?_⟩
          rw [← hok, hsp']
      · dsimp only
        intro hok
        exact Or.inl (by rw [handleErrPath_ok_inv _ _ _ _ hok])

theorem chatBody_ok_closed (sp : JVal) (msgs : List JVal) (up : Upstream) (sc : SCState)
    (hs : sc.sock = true) (hok : isOk (chatBody sp msgs up sc).1 = true) :
    Ev.closed ∈ (chatBody sp msgs up sc).2 := by
  unfold chatBody at hok ⊢
  revert hok
  rcases hd : doSend sc (.stateP sp) with ⟨b, sc1⟩
  have hs1 : sc1.sock = true := by
    have hsock := doSend_sock sc (.stateP sp)
    rw [hd] at hsock
    rw [show sc1.sock = sc.sock from hsock, hs]
  cases b
  · intro hok
    simp [isOk] at hok
  · dsimp only
    cases up with
    | fail msg =>
      dsimp only
      intro _
      exact handleErrPath_closed _ _ _ hs1
    | ok ls =>
      dsimp only
      have hs2' := runLines_sock ls "" sc1
      rcases hr : runLines ls "" sc1 with ⟨full, sc2⟩ | ⟨e, sc2⟩
      · rw [hr] at hs2'
        dsimp only [scOf] at hs2'
        have hs2 : sc2.sock = true := by
          rw [show sc2.sock = sc1.sock from hs2', hs1]
        dsimp only
        cases hset : pySetItem sp "history" (.arr (msgs ++ [msgObj "assistant" full])) with
        | error e =>
          intro _
          exact handleErrPath_closed _ _ _ hs2
        | ok sp' =>
          intro _
          simp [doClose_true sc2 hs2]
      · rw [hr] at hs2'
        dsimp only [scOf] at hs2'
        have hs2 : sc2.sock = true := by
          rw [show sc2.sock = sc1.sock from hs2', hs1]
        dsimp only
        intro _
        exact handleErrPath_closed _ _ _ hs2

theorem chatBody_nil_isOk (kvs : List (String × JVal)) (msgs : List JVal) (up : Upstream)
    (sc : SCState) (hsends : sc.sends = []) :
    isOk (chatBody (.obj kvs) msgs up sc).1 = true := by
  obtain ⟨sock, sends, tr⟩ := sc
  dsimp only at hsends
  subst hsends
  unfold chatBody
  rw [doSend_nil]
  dsimp only
  cases up with
  | fail msg =>
    dsimp only
    rw [handleErrPath_nil]
    rfl
  | ok ls =>
    dsimp only
    rw [runLines_nil]
    rcases hpl : pureLoop ls with ⟨ds, rr⟩
    cases rr with
    | some e =>
      dsimp only
      rw [handleErrPath_nil]
      rfl
    | none =>
      dsimp only [pySetItem]
      rfl

theorem chatBody_fail_nil (sp : JVal) (msgs : List JVal) (msg : String) (sc : SCState)
    (hsends : sc.sends = []) :
    (chatBody sp msgs (.fail msg) sc).1 = .ok ⟨"API request failed: " ++ msg, true, sp⟩ := by
  obtain ⟨sock, sends, tr⟩ := sc
  dsimp only at hsends
  subst hsends
  unfold chatBody
  rw [doSend_nil]
  dsimp only
  rw [handleErrPath_nil]

theorem chatBody_done_nil (kvs : List (String × JVal)) (msgs : List JVal)
    (ls ds : List String) (sock : Bool) (tr : List Ev)
    (hloop : pureLoop ls = (ds, none)) :
    chatBody (.obj kvs) msgs (.ok ls) ⟨sock, [], tr⟩ =
      (.ok ⟨strJoin ds, true,
          .obj (objSet kvs "history" (.arr (msgs ++ [msgObj "assistant" (strJoin ds)])))⟩,
        (if sock then
          tr ++ [Ev.sent (.stateP (.obj kvs))] ++ ds.map (fun s => Ev.sent (.outP s)) ++
            [Ev.closed]
         else tr)) := by
  unfold chatBody
  rw [doSend_nil]
  dsimp only
  rw [runLines_nil, hloop]
  dsimp only [pySetItem]
  cases sock
  · rw [doClose_false _ rfl]
    simp [outEvts, STREAM_ENABLED]
  · rw [doClose_true _ rfl]
    simp [outEvts, STREAM_ENABLED]

/-! ## Top-level glue lemmas -/

theorem chat_def (args : Args) (net : Net) :
    chat args net =
      chatCore (mkStatePayload args.state) (args.input.getD "") args.streamHost
        args.streamPort net := rfl

theorem chatCore_ok (sp0 sp : JVal) (inp host : String) (port : Int) (net : Net)
    (hst : defaultState sp0 = .ok sp) :
    chatCore sp0 inp host port net = dispatch sp (pyStrip inp) host port net := by
  unfold chatCore
  rw [hst]

theorem chatCore_err (sp0 : JVal) (e : String) (inp host : String) (port : Int) (net : Net)
    (hst : defaultState sp0 = .error e) :
    chatCore sp0 inp host port net = (.exn e, []) := by
  unfold chatCore
  rw [hst]

theorem dispatch_empty (sp : JVal) (host : String) (port : Int) (net : Net) :
    dispatch sp "" host port net = (.ok ⟨usageMsg, true, sp⟩, []) := by
  unfold dispatch
  rw [if_pos rfl]

theorem dispatch_command (sp : JVal) (u host : String) (port : Int) (net : Net)
    (hne : u ≠ "") (hamp : startsWithAmp u = true) :
    dispatch sp u host port net = commandPath sp u host port net := by
  unfold dispatch
  rw [if_neg hne, hamp, if_pos rfl]

theorem dispatch_chat (sp : JVal) (u host : String) (port : Int) (net : Net)
    (hne : u ≠ "") (hamp : startsWithAmp u = false) :
    dispatch sp u host port net = chatPath sp u host port net := by
  unfold dispatch
  rw [if_neg hne, hamp, if_neg (by simp)]

theorem chatPath_run (sp : JVal) (h0 : List JVal) (u host : String) (port : Int) (net : Net)
    (hh : pyGetItem sp "history" = .ok (.arr h0)) :
    chatPath sp u host port net =
      (match openSocket host port net with
       | .refused tr => (.exn "ConnectionRefusedError", tr)
       | .opened sc => chatBody sp (h0 ++ [msgObj "user" u]) net.upstream sc) := by
  unfold chatPath
  rw [hh]

/-! ## Small helper lemmas for the claim statements -/

theorem pyGetItem_ok_obj (v : JVal) (k : String) (x : JVal) (h : pyGetItem v k = .ok x) :
    ∃ kvs, v = .obj kvs ∧ objGet kvs k = some x := by
  cases v with
  | obj kvs =>
    refine ⟨kvs, rfl, ?_⟩
    simp [pyGetItem] at h
    cases hg : objGet kvs k with
    | none => rw [hg] at h; simp at h
    | some y => rw [hg] at h; simp at h; rw [h]
  | null => simp [pyGetItem] at h
  | bool b => simp [pyGetItem] at h
  | num n => simp [pyGetItem] at h
  | numF l => simp [pyGetItem] at h
  | str sx => simp [pyGetItem] at h
  | arr xs => simp [pyGetItem] at h

theorem sentOutputs_map (ds : List String) :
    sentOutputs (ds.map (fun s => Ev.sent (.outP s))) = ds := by
  induction ds with
  | nil => rfl
  | cons d rest ih => simp [sentOutputs] at ih ⊢; exact ih

theorem startsWithAmp_at (t : String) : startsWithAmp ("@" ++ t) = true := by
  obtain ⟨l⟩ := t
  rfl

theorem at_append_ne_empty (t : String) : "@" ++ t ≠ "" := by
  obtain ⟨l⟩ := t
  intro h
  have hd := congrArg String.data h
  simp at hd

theorem at_append_ne_at (t : String) (ht : t ≠ "") : "@" ++ t ≠ "@" := by
  obtain ⟨l⟩ := t
  intro h
  have hd := congrArg String.data h
  simp at hd
  exact ht (by rw [hd])

theorem strTail_at (t : String) : strTail ("@" ++ t) = t := by
  obtain ⟨l⟩ := t
  rfl

theorem STATIC_MODELS_ne_empty (m : String) (hm : m ∈ STATIC_MODELS) : m ≠ "" := by
  fin_cases hm <;> decide

theorem emitAndReturn_nil_fst (sp : JVal) (o : String) (sc : SCState) (h : sc.sends = []) :
    (emitAndReturn sp o sc).1 = .ok ⟨o, true, sp⟩ := by
  obtain ⟨sock, sends, tr⟩ := sc
  dsimp only at h
  subst h
  rw [emitAndReturn_nil]

/-! ## First-component invariance under a successful side channel -/

theorem handleErrPath_nil_fst (sp : JVal) (ft : String) (sc : SCState) (h : sc.sends = []) :
    (handleErrPath sp ft sc).1 = .ok ⟨ft, true, sp⟩ := by
  obtain ⟨sock, sends, tr⟩ := sc
  dsimp only at h
  subst h
  rw [handleErrPath_nil]

theorem commandBody_nil_fst (sp : JVal) (u : String) (sc sc' : SCState)
    (h : sc.sends = []) (h' : sc'.sends = []) :
    (commandBody sp u sc).1 = (commandBody sp u sc').1 := by
  by_cases hu : u = "@"
  · subst hu
    rw [commandBody_list, commandBody_list]
    cases pyGetItem sp "model" with
    | error e => rfl
    | ok mv =>
      dsimp only
      rw [emitAndReturn_nil_fst _ _ _ h, emitAndReturn_nil_fst _ _ _ h']
  · cases hml : STATIC_MODELS.filter (fun x => pyLower x = pyLower (strTail u)) with
    | nil =>
      rw [commandBody_nomatch sp u sc hu hml, commandBody_nomatch sp u sc' hu hml]
      cases pyGetItem sp "model" with
      | error e => rfl
      | ok mv =>
        dsimp only
        rw [emitAndReturn_nil_fst _ _ _ h, emitAndReturn_nil_fst _ _ _ h']
    | cons m rest =>
      cases rest with
      | nil =>
        rw [commandBody_single sp u sc m hu hml, commandBody_single sp u sc' m hu hml]
        cases pySetItem sp "model" (.str m) with
        | error e => rfl
        | ok sp2 =>
          dsimp only
          rw [emitAndReturn_nil_fst _ _ _ h, emitAndReturn_nil_fst _ _ _ h']
      | cons m2 rest2 =>
        rw [commandBody_multi sp u sc m m2 rest2 hu hml,
          commandBody_multi sp u sc' m m2 rest2 hu hml]
        rw [emitAndReturn_nil_fst _ _ _ h, emitAndReturn_nil_fst _ _ _ h']

theorem chatBody_nil_fst (sp : JVal) (msgs : List JVal) (up : Upstream) (sc sc' : SCState)
    (h : sc.sends = []) (h' : sc'.sends = []) :
    (chatBody sp msgs up sc).1 = (chatBody sp msgs up sc').1 := by
  obtain ⟨sock, sends, tr⟩ := sc
  obtain ⟨sock', sends', tr'⟩ := sc'
  dsimp only at h h'
  subst h
  subst h'
  unfold chatBody
  rw [doSend_nil, doSend_nil]
  dsimp only
  cases up with
  | fail msg =>
    dsimp only
    rw [handleErrPath_nil, handleErrPath_nil]
  | ok ls =>
    dsimp only
    rw [runLines_nil, runLines_nil]
    rcases hpl : pureLoop ls with ⟨ds, rr⟩
    cases rr with
    | some e =>
      dsimp only
      rw [handleErrPath_nil, handleErrPath_nil]
    | none =>
      dsimp only
      cases pySetItem sp "history" (.arr (msgs ++ [msgObj "assistant" ("" ++ strJoin ds)])) with
      | error e =>
        dsimp only
        rw [handleErrPath_nil, handleErrPath_nil]
      | ok sp2 => rfl

theorem commandPath_nil_fst (sp : JVal) (u host host' : String) (port port' : Int) (net : Net)
    (hnet : netOk net) :
    (commandPath sp u host port net).1 = (commandPath sp u host' port' net).1 := by
  obtain ⟨hconn, hsends⟩ := hnet
  obtain ⟨s1, t1, ho1⟩ := openSocket_ok host port net hconn
  obtain ⟨s2, t2, ho2⟩ := openSocket_ok host' port' net hconn
  unfold commandPath
  rw [ho1, ho2]
  dsimp only
  exact commandBody_nil_fst sp u _ _ hsends hsends

theorem chatPath_nil_fst (sp : JVal) (u host host' : String) (port port' : Int) (net : Net)
    (hnet : netOk net) :
    (chatPath sp u host port net).1 = (chatPath sp u host' port' net).1 := by
  obtain ⟨hconn, hsends⟩ := hnet
  unfold chatPath
  cases pyGetItem sp "history" with
  | error e => rfl
  | ok histV =>
    cases histV with
    | arr h0 =>
      dsimp only
      obtain ⟨s1, t1, ho1⟩ := openSocket_ok host port net hconn
      obtain ⟨s2, t2, ho2⟩ := openSocket_ok host' port' net hconn
      rw [ho1, ho2]
      dsimp only
      exact chatBody_nil_fst sp _ net.upstream _ _ hsends hsends
    | null => rfl
    | bool b => rfl
    | num n => rfl
    | numF l => rfl
    | str sx => rfl
    | obj kvs => rfl

/-- Every path out of `chat` with the empty-object state returns normally when
all attempted side-channel operations succeed. -/
theorem chatCore_emptyState_isOk (inp host : String) (port : Int) (net : Net)
    (hnet : netOk net) :
    isOk (chatCore (.obj []) inp host port net).1 = true := by
  obtain ⟨hconn, hsends⟩ := hnet
  rw [chatCore_ok (.obj []) (.obj [("model", .str DEFAULT_MODEL), ("history", .arr [])])
    inp host port net rfl]
  by_cases hu : pyStrip inp = ""
  · rw [hu, dispatch_empty]
    rfl
  · by_cases hamp : startsWithAmp (pyStrip inp) = true
    · rw [dispatch_command _ _ _ _ _ hu hamp]
      unfold commandPath
      obtain ⟨s1, t1, ho1⟩ := openSocket_ok host port net hconn
      rw [ho1]
      dsimp only
      exact commandBody_nil_isOk _ _ _ hsends (.str DEFAULT_MODEL) rfl
    · have hamp' : startsWithAmp (pyStrip inp) = false := by
        cases h2 : startsWithAmp (pyStrip inp) with
        | false => rfl
        | true => exact absurd h2 hamp
      rw [dispatch_chat _ _ _ _ _ hu hamp']
      rw [chatPath_run (.obj [("model", .str DEFAULT_MODEL), ("history", .arr [])]) []
        (pyStrip inp) host port net rfl]
      obtain ⟨s1, t1, ho1⟩ := openSocket_ok host port net hconn
      rw [ho1]
      dsimp only
      exact chatBody_nil_isOk _ _ _ _ hsends

/-! ## Claim C1 -/

/-- C1 (counterexample): with a side-channel host and non-zero port configured
and the connection refused, the side-channel transport failure is NOT caught:
`chat` does not return its normal result object — the `ConnectionRefusedError`
raised inside `_open_socket` propagates out of `chat` (the call at source line
185 is outside every `try`). -/
theorem C1_counterexample :
    chat ⟨some "hello", none, "observer", 9⟩ ⟨false, [], .fail "x"⟩ =
      (.exn "ConnectionRefusedError", [.connectFail]) := rfl

/-- C1 (amended): when a side-channel host and non-zero port are configured,
the connection opens successfully and every side-channel send succeeds, `chat`
returns the same outcome (output, streaming flag and state) as it would have
had the side channel been absent. -/
theorem C1_success_transparent (args : Args) (net : Net) (hnet : netOk net)
    (hhost : pyStrip args.streamHost ≠ "") (hport : args.streamPort ≠ 0) :
    (chat args net).1 = (chat ⟨args.input, args.state, "", 0⟩ net).1 := by
  rw [chat_def, chat_def]
  dsimp only
  cases hst : defaultState (mkStatePayload args.state) with
  | error e =>
    rw [chatCore_err _ _ _ _ _ _ hst, chatCore_err _ _ _ _ _ _ hst]
  | ok sp =>
    rw [chatCore_ok _ _ _ _ _ _ hst, chatCore_ok _ _ _ _ _ _ hst]
    by_cases hu : pyStrip (args.input.getD "") = ""
    · rw [hu, dispatch_empty, dispatch_empty]
    · by_cases hamp : startsWithAmp (pyStrip (args.input.getD "")) = true
      · rw [dispatch_command _ _ _ _ _ hu hamp, dispatch_command _ _ _ _ _ hu hamp]
        exact commandPath_nil_fst sp _ _ _ _ _ net hnet
      · have hamp' : startsWithAmp (pyStrip (args.input.getD "")) = false := by
          cases h2 : startsWithAmp (pyStrip (args.input.getD "")) with
          | false => rfl
          | true => exact absurd h2 hamp
        rw [dispatch_chat _ _ _ _ _ hu hamp', dispatch_chat _ _ _ _ _ hu hamp']
        exact chatPath_nil_fst sp _ _ _ _ _ net hnet

/-- C1 witness. -/
theorem C1_success_transparent_witness :
    (chat ⟨some "hi", none, "h", 1⟩ ⟨true, [], .fail "boom"⟩).1 =
      (chat ⟨some "hi", none, "", 0⟩ ⟨true, [], .fail "boom"⟩).1 :=
  C1_success_transparent ⟨some "hi", none, "h", 1⟩ ⟨true, [], .fail "boom"⟩ ⟨rfl, rfl⟩
    (by decide) (by decide)

/-! ## Claim C3 -/

/-- C3: on a chat-path turn whose upstream request fails (network error or
non-2xx status, both raised as a `requests` exception and caught at source
line 233), `chat` returns normally with an output string describing the error,
and the returned state is the defaulted input state unchanged: no assistant
message is appended and the just-built user message is not persisted. -/
theorem C3_upstream_failure (args : Args) (net : Net) (sp : JVal) (h0 : List JVal)
    (msg : String) (hnet : netOk net)
    (hst : defaultState (mkStatePayload args.state) = .ok sp)
    (hin : pyStrip (args.input.getD "") ≠ "")
    (hat : startsWithAmp (pyStrip (args.input.getD "")) = false)
    (hh : pyGetItem sp "history" = .ok (.arr h0))
    (hup : net.upstream = .fail msg) :
    (chat args net).1 = .ok ⟨"API request failed: " ++ msg, true, sp⟩ := by
  obtain ⟨hconn, hsends⟩ := hnet
  rw [chat_def, chatCore_ok _ _ _ _ _ _ hst, dispatch_chat _ _ _ _ _ hin hat,
    chatPath_run _ h0 _ _ _ _ hh]
  obtain ⟨s1, t1, ho1⟩ := openSocket_ok args.streamHost args.streamPort net hconn
  rw [ho1]
  dsimp only
  rw [hup]
  exact chatBody_fail_nil sp _ msg _ hsends

/-- C3 witness. -/
theorem C3_upstream_failure_witness :
    (chat ⟨some "hi", none, "", 0⟩ ⟨true, [], .fail "boom"⟩).1 =
      .ok ⟨"API request failed: boom", true,
        .obj [("model", .str DEFAULT_MODEL), ("history", .arr [])]⟩ :=
  C3_upstream_failure ⟨some "hi", none, "", 0⟩ ⟨true, [], .fail "boom"⟩
    (.obj [("model", .str DEFAULT_MODEL), ("history", .arr [])]) [] "boom"
    ⟨rfl, rfl⟩ rfl (by decide) rfl rfl rfl

/-! ## Claim C4 -/

/-- C4 (counterexample): a caller-supplied `state` that is a JSON-encoded
string decoding to a non-object (here `"5"`) is NOT treated as an empty state:
`json.loads` succeeds, and the key test `"model" not in 5` at source line 101
raises an uncaught `TypeError`, so `chat` raises instead of returning a
result object. -/
theorem C4_counterexample :
    chat ⟨some "hi", some (.str "5"), "", 0⟩ ⟨true, [], .fail "x"⟩ =
      (.exn "TypeError", []) := rfl

/-- C4 (amended): a caller-supplied `state` that is absent, a string that
fails to decode as JSON at all, or a non-string non-dict value is treated as
the empty state (with defaulted model and empty history): `chat` behaves
exactly as if the caller had passed the empty object, and returns a normal
result object (when the attempted side-channel operations succeed).  A string
decoding to a non-object JSON value is not defended against (see the
counterexample). -/
theorem C4_invalid_state_fallback (args : Args) (net : Net) (hnet : netOk net)
    (hstate : args.state = none ∨
      (∃ s, args.state = some (.str s) ∧ jsonParse s = none) ∨
      (∃ v, args.state = some v ∧ (∀ s, v ≠ .str s) ∧ (∀ kvs, v ≠ .obj kvs))) :
    chat args net = chat ⟨args.input, some (.obj []), args.streamHost, args.streamPort⟩ net ∧
    isOk (chat args net).1 = true := by
  have hmk : mkStatePayload args.state = .obj [] := by
    rcases hstate with h | ⟨sv, hs, hp⟩ | ⟨v, hs, hns, hno⟩
    · rw [h]
      rfl
    · rw [hs]
      simp [mkStatePayload, hp]
    · rw [hs]
      cases v with
      | str sx => exact absurd rfl (hns sx)
      | obj kvs => exact absurd rfl (hno kvs)
      | null => rfl
      | bool b => rfl
      | num n => rfl
      | numF l => rfl
      | arr xs => rfl
  have heq : chat args net =
      chat ⟨args.input, some (.obj []), args.streamHost, args.streamPort⟩ net := by
    rw [chat_def, chat_def]
    dsimp only
    rw [hmk]
    rfl
  refine ⟨heq, ?_⟩
  rw [heq, chat_def]
  dsimp only
  rw [show mkStatePayload (some (.obj [])) = .obj [] from rfl]
  exact chatCore_emptyState_isOk _ _ _ net hnet

/-- C4 witness. -/
theorem C4_invalid_state_fallback_witness :
    chat ⟨some "x", none, "", 0⟩ ⟨true, [], .fail "down"⟩ =
      chat ⟨some "x", some (.obj []), "", 0⟩ ⟨true, [], .fail "down"⟩ ∧
    isOk (chat ⟨some "x", none, "", 0⟩ ⟨true, [], .fail "down"⟩).1 = true :=
  C4_invalid_state_fallback ⟨some "x", none, "", 0⟩ ⟨true, [], .fail "down"⟩
    ⟨rfl, rfl⟩ (Or.inl rfl)

/-! ## Claim C6 -/

/-- C6: on empty (whitespace-only) input, `chat` returns the fixed usage
banner, a streaming flag equal to `true` (the source's literal at line 115),
and the input state unchanged apart from defaulting, and the side channel is
never opened or written (the trace is empty). -/
theorem C6_empty_input (args : Args) (net : Net) (sp : JVal)
    (hst : defaultState (mkStatePayload args.state) = .ok sp)
    (hin : pyStrip (args.input.getD "") = "") :
    chat args net = (.ok ⟨usageMsg, true, sp⟩, []) := by
  rw [chat_def, chatCore_ok _ _ _ _ _ _ hst, hin, dispatch_empty]

/-- C6 witness. -/
theorem C6_empty_input_witness :
    chat ⟨some "  ", none, "h", 1⟩ ⟨true, [], .fail "x"⟩ =
      (.ok ⟨usageMsg, true, .obj [("model", .str DEFAULT_MODEL), ("history", .arr [])]⟩, []) :=
  C6_empty_input ⟨some "  ", none, "h", 1⟩ ⟨true, [], .fail "x"⟩
    (.obj [("model", .str DEFAULT_MODEL), ("history", .arr [])]) rfl rfl

/-! ## Claim C2 -/

theorem sentOutputs_append (t1 t2 : List Ev) :
    sentOutputs (t1 ++ t2) = sentOutputs t1 ++ sentOutputs t2 := by
  simp [sentOutputs]

/-- C2: on the streaming chat path, when the upstream response body is
processed to completion without any error (`pureLoop` ends without an
exception) and the side channel is configured and fault-free, the
concatenation, in emission order, of every content-delta `{"output": chunk}`
payload sent to the side channel equals the returned output text. -/
theorem C2_stream_concat (args : Args) (net : Net) (sp : JVal) (h0 : List JVal)
    (ls ds : List String) (hnet : netOk net)
    (hst : defaultState (mkStatePayload args.state) = .ok sp)
    (hin : pyStrip (args.input.getD "") ≠ "")
    (hat : startsWithAmp (pyStrip (args.input.getD "")) = false)
    (hh : pyGetItem sp "history" = .ok (.arr h0))
    (hhost : pyStrip args.streamHost ≠ "") (hport : args.streamPort ≠ 0)
    (hup : net.upstream = .ok ls) (hloop : pureLoop ls = (ds, none)) :
    isOk (chat args net).1 = true ∧
    strJoin (sentOutputs (chat args net).2) = outputOf (chat args net).1 := by
  obtain ⟨hconn, hsends⟩ := hnet
  obtain ⟨kvs, hkvs, hget⟩ := pyGetItem_ok_obj _ _ _ hh
  rw [chat_def, chatCore_ok _ _ _ _ _ _ hst, dispatch_chat _ _ _ _ _ hin hat,
    chatPath_run _ h0 _ _ _ _ hh,
    openSocket_configured _ _ _ hhost hport hconn]
  dsimp only
  rw [hsends, hup]
  subst hkvs
  rw [chatBody_done_nil kvs _ ls ds true [.connected] hloop]
  refine ⟨rfl, ?_⟩
  dsimp only
  rw [if_pos rfl]
  rw [sentOutputs_append, sentOutputs_append, sentOutputs_append, sentOutputs_map]
  simp [sentOutputs, outputOf]

/-- C2 witness. -/
theorem C2_stream_concat_witness :
    isOk (chat ⟨some "hi", none, "h", 1⟩
      ⟨true, [],
        .ok ["data: \x7b\"choices\":[\x7b\"delta\":\x7b\"content\":\"Hi\"\x7d\x7d]\x7d",
             "data: [DONE]"]⟩).1 = true ∧
    strJoin (sentOutputs (chat ⟨some "hi", none, "h", 1⟩
      ⟨true, [],
        .ok ["data: \x7b\"choices\":[\x7b\"delta\":\x7b\"content\":\"Hi\"\x7d\x7d]\x7d",
             "data: [DONE]"]⟩).2) =
      outputOf (chat ⟨some "hi", none, "h", 1⟩
        ⟨true, [],
          .ok ["data: \x7b\"choices\":[\x7b\"delta\":\x7b\"content\":\"Hi\"\x7d\x7d]\x7d",
               "data: [DONE]"]⟩).1 :=
  C2_stream_concat ⟨some "hi", none, "h", 1⟩
    ⟨true, [],
      .ok ["data: \x7b\"choices\":[\x7b\"delta\":\x7b\"content\":\"Hi\"\x7d\x7d]\x7d",
           "data: [DONE]"]⟩
    (.obj [("model", .str DEFAULT_MODEL), ("history", .arr [])]) [] _ ["Hi"]
    ⟨rfl, rfl⟩ rfl (by decide) rfl rfl (by decide) (by decide) rfl (by rfl)

/-! ## Claim C10 -/

/-- C10: on the streaming chat path, if the upstream response contains no
content deltas before the `[DONE]` sentinel or the end of the body (and the
decoding raises nothing), `chat` still appends an assistant message with empty
content to the history and returns an empty output string. -/
theorem C10_empty_stream (args : Args) (net : Net) (sp : JVal) (h0 : List JVal)
    (ls : List String) (hnet : netOk net)
    (hst : defaultState (mkStatePayload args.state) = .ok sp)
    (hin : pyStrip (args.input.getD "") ≠ "")
    (hat : startsWithAmp (pyStrip (args.input.getD "")) = false)
    (hh : pyGetItem sp "history" = .ok (.arr h0))
    (hup : net.upstream = .ok ls) (hloop : pureLoop ls = ([], none)) :
    isOk (chat args net).1 = true ∧
    outputOf (chat args net).1 = "" ∧
    pyGetItem (stateOf (chat args net).1) "history" =
      .ok (.arr ((h0 ++ [msgObj "user" (pyStrip (args.input.getD ""))]) ++
        [msgObj "assistant" ""])) := by
  obtain ⟨hconn, hsends⟩ := hnet
  obtain ⟨kvs, hkvs, hget⟩ := pyGetItem_ok_obj _ _ _ hh
  obtain ⟨s1, t1, ho1⟩ := openSocket_ok args.streamHost args.streamPort net hconn
  rw [chat_def, chatCore_ok _ _ _ _ _ _ hst, dispatch_chat _ _ _ _ _ hin hat,
    chatPath_run _ h0 _ _ _ _ hh, ho1]
  dsimp only
  rw [hsends, hup]
  subst hkvs
  rw [chatBody_done_nil kvs _ ls [] s1 t1 hloop]
  refine ⟨rfl, rfl, ?_⟩
  dsimp only [stateOf]
  rw [pyGetItem_objSet_same]
  rfl

/-- C10 witness. -/
theorem C10_empty_stream_witness :
    isOk (chat ⟨some "hi", none, "", 0⟩ ⟨true, [], .ok ["data: [DONE]"]⟩).1 = true ∧
    outputOf (chat ⟨some "hi", none, "", 0⟩ ⟨true, [], .ok ["data: [DONE]"]⟩).1 = "" ∧
    pyGetItem (stateOf (chat ⟨some "hi", none, "", 0⟩ ⟨true, [], .ok ["data: [DONE]"]⟩).1)
        "history" =
      .ok (.arr (([] ++ [msgObj "user" (pyStrip ((some "hi").getD ""))]) ++
        [msgObj "assistant" ""])) :=
  C10_empty_stream ⟨some "hi", none, "", 0⟩ ⟨true, [], .ok ["data: [DONE]"]⟩
    (.obj [("model", .str DEFAULT_MODEL), ("history", .arr [])]) [] _
    ⟨rfl, rfl⟩ rfl (by decide) rfl rfl rfl rfl

/-! ## Claim C5 -/

/-- C5: for an input of the form `@` followed by non-empty text, selection
filters the catalog by full case-folded equality against the text; with
exactly one match the returned state's model is the matched entry with the
catalog's casing and the output reports the update, and with zero matches the
output reports that no model was found and the state is returned unchanged
(after defaulting). -/
theorem C5_model_selection (args : Args) (net : Net) (kvs : List (String × JVal))
    (mv : JVal) (t m : String) (hnet : netOk net)
    (hst : defaultState (mkStatePayload args.state) = .ok (.obj kvs))
    (hin : pyStrip (args.input.getD "") = "@" ++ t) (ht : t ≠ "")
    (hm : pyGetItem (.obj kvs) "model" = .ok mv) :
    (STATIC_MODELS.filter (fun x => pyLower x = pyLower t) = [m] →
      (chat args net).1 =
        .ok ⟨"Model updated to: " ++ m, true, .obj (objSet kvs "model" (.str m))⟩ ∧
      pyGetItem (.obj (objSet kvs "model" (.str m))) "model" = .ok (.str m)) ∧
    (STATIC_MODELS.filter (fun x => pyLower x = pyLower t) = [] →
      (chat args net).1 =
        .ok ⟨"No model found with prefix '" ++ pyLower t ++
          "'. Current model remains: " ++ pyStr mv, true, .obj kvs⟩) := by
  obtain ⟨hconn, hsends⟩ := hnet
  obtain ⟨s1, t1, ho1⟩ := openSocket_ok args.streamHost args.streamPort net hconn
  have hchain : (chat args net).1 =
      (commandBody (.obj kvs) ("@" ++ t) ⟨s1, net.sends, t1⟩).1 := by
    rw [chat_def, chatCore_ok _ _ _ _ _ _ hst, hin,
      dispatch_command _ _ _ _ _ (at_append_ne_empty t) (startsWithAmp_at t)]
    unfold commandPath
    rw [ho1]
  constructor
  · intro hml
    rw [hchain, commandBody_single (.obj kvs) ("@" ++ t) _ m (at_append_ne_at t ht)
      (by rw [strTail_at]; exact hml)]
    dsimp only [pySetItem]
    refine ⟨?_, pyGetItem_objSet_same kvs "model" (.str m)⟩
    exact emitAndReturn_nil_fst _ _ _ hsends
  · intro hml
    rw [hchain, commandBody_nomatch (.obj kvs) ("@" ++ t) _ (at_append_ne_at t ht)
      (by rw [strTail_at]; exact hml)]
    rw [hm]
    dsimp only
    rw [strTail_at]
    exact emitAndReturn_nil_fst _ _ _ hsends

/-- C5 witness (one case-insensitive match, and a no-match instance). -/
theorem C5_model_selection_witness :
    (STATIC_MODELS.filter (fun x => pyLower x = pyLower "OpenAI/GPT-5") = ["openai/gpt-5"] →
      (chat ⟨some "@OpenAI/GPT-5", none, "", 0⟩ ⟨true, [], .fail "x"⟩).1 =
        .ok ⟨"Model updated to: openai/gpt-5", true,
          .obj (objSet [("model", .str DEFAULT_MODEL), ("history", .arr [])] "model"
            (.str "openai/gpt-5"))⟩ ∧
      pyGetItem (.obj (objSet [("model", .str DEFAULT_MODEL), ("history", .arr [])] "model"
          (.str "openai/gpt-5"))) "model" = .ok (.str "openai/gpt-5")) ∧
    (STATIC_MODELS.filter (fun x => pyLower x = pyLower "OpenAI/GPT-5") = [] →
      (chat ⟨some "@OpenAI/GPT-5", none, "", 0⟩ ⟨true, [], .fail "x"⟩).1 =
        .ok ⟨"No model found with prefix '" ++ pyLower "OpenAI/GPT-5" ++
          "'. Current model remains: " ++ pyStr (.str DEFAULT_MODEL), true,
          .obj [("model", .str DEFAULT_MODEL), ("history", .arr [])]⟩) :=
  C5_model_selection ⟨some "@OpenAI/GPT-5", none, "", 0⟩ ⟨true, [], .fail "x"⟩
    [("model", .str DEFAULT_MODEL), ("history", .arr [])] (.str DEFAULT_MODEL)
    "OpenAI/GPT-5" "openai/gpt-5" ⟨rfl, rfl⟩ rfl (by rfl) (by decide) rfl

/-! ## Claim C8 -/

/-- C8: whenever `chat` returns normally, the returned state's history is
either exactly the defaulted input state's history value (unchanged), or the
defaulted input history (a list) with messages appended after it — `chat` only
ever appends, so prior history entries are preserved unmodified. -/
theorem C8_history_append_only (args : Args) (net : Net) (sp : JVal) (r : ChatRes)
    (hst : defaultState (mkStatePayload args.state) = .ok sp)
    (hok : (chat args net).1 = .ok r) :
    histExtends sp r.state := by
  unfold histExtends
  rw [chat_def, chatCore_ok _ _ _ _ _ _ hst] at hok
  by_cases hu : pyStrip (args.input.getD "") = ""
  · rw [hu, dispatch_empty] at hok
    simp at hok
    exact Or.inl (by rw [← hok])
  · by_cases hamp : startsWithAmp (pyStrip (args.input.getD "")) = true
    · rw [dispatch_command _ _ _ _ _ hu hamp] at hok
      unfold commandPath at hok
      revert hok
      cases ho : openSocket args.streamHost args.streamPort net with
      | refused tr =>
        intro hok
        simp at hok
      | opened sc =>
        intro hok
        dsimp only at hok
        rcases commandBody_ok_state _ _ _ _ hok with hr | ⟨kvs, m, hkvs, hmem, hr⟩
        · exact Or.inl (by rw [hr])
        · refine Or.inl ?_
          rw [hr, hkvs]
          exact pyGetItem_objSet_other kvs "model" "history" (.str m) (by decide)
    · have hamp' : startsWithAmp (pyStrip (args.input.getD "")) = false := by
        cases h2 : startsWithAmp (pyStrip (args.input.getD "")) with
        | false => rfl
        | true => exact absurd h2 hamp
      rw [dispatch_chat _ _ _ _ _ hu hamp'] at hok
      unfold chatPath at hok
      revert hok
      cases hh : pyGetItem sp "history" with
      | error e =>
        intro hok
        simp at hok
      | ok histV =>
        cases histV with
        | arr h0 =>
          dsimp only
          cases ho : openSocket args.streamHost args.streamPort net with
          | refused tr =>
            intro hok
            simp at hok
          | opened sc =>
            dsimp only
            intro hok
            rcases chatBody_ok_state _ _ _ _ _ hok with hr | ⟨kvs, full, hkvs, hr⟩
            · exact Or.inl (by rw [hr]; exact hh)
            · refine Or.inr ⟨h0, [msgObj "user" (pyStrip (args.input.getD ""))] ++
                [msgObj "assistant" full], rfl, ?_⟩
              rw [hr, pyGetItem_objSet_same, List.append_assoc]
        | null => intro hok; simp at hok
        | bool b => intro hok; simp at hok
        | num n => intro hok; simp at hok
        | numF l => intro hok; simp at hok
        | str sx => intro hok; simp at hok
        | obj kvs2 => intro hok; simp at hok

/-- C8 witness. -/
theorem C8_history_append_only_witness :
    histExtends (.obj [("model", .str DEFAULT_MODEL), ("history", .arr [])])
      (.obj [("model", .str DEFAULT_MODEL), ("history", .arr [])]) :=
  C8_history_append_only ⟨none, none, "", 0⟩ ⟨true, [], .fail "x"⟩
    (.obj [("model", .str DEFAULT_MODEL), ("history", .arr [])])
    ⟨usageMsg, true, .obj [("model", .str DEFAULT_MODEL), ("history", .arr [])]⟩ rfl rfl

/-! ## Claim C9 -/

/-- C9 (counterexample): a caller-supplied state whose `model` key holds the
empty string keeps it verbatim — defaulting at source line 101 only fires when
the key is absent — so `chat` returns a state whose model is the empty
string, refuting the claim that the returned model is always non-empty. -/
theorem C9_counterexample :
    (chat ⟨none, some (.obj [("model", .str "")]), "", 0⟩ ⟨true, [], .fail "x"⟩).1 =
      .ok ⟨usageMsg, true, .obj [("model", .str ""), ("history", .arr [])]⟩ ∧
    pyGetItem (.obj [("model", .str ""), ("history", .arr [])]) "model" = .ok (.str "") :=
  ⟨rfl, rfl⟩

/-- C9 (amended): the model of the returned state is a non-empty string
whenever the defaulted input state's model is a non-empty string (that is,
whenever the caller omitted the key or supplied a non-empty string); a
caller-supplied empty or non-string model value is kept verbatim instead. -/
theorem C9_model_nonempty (args : Args) (net : Net) (sp : JVal) (r : ChatRes) (m0 : String)
    (hst : defaultState (mkStatePayload args.state) = .ok sp)
    (hm : pyGetItem sp "model" = .ok (.str m0)) (hm0 : m0 ≠ "")
    (hok : (chat args net).1 = .ok r) :
    nonEmptyStrModel r.state := by
  unfold nonEmptyStrModel
  rw [chat_def, chatCore_ok _ _ _ _ _ _ hst] at hok
  by_cases hu : pyStrip (args.input.getD "") = ""
  · rw [hu, dispatch_empty] at hok
    simp at hok
    exact ⟨m0, by rw [← hok]; exact hm, hm0⟩
  · by_cases hamp : startsWithAmp (pyStrip (args.input.getD "")) = true
    · rw [dispatch_command _ _ _ _ _ hu hamp] at hok
      unfold commandPath at hok
      revert hok
      cases ho : openSocket args.streamHost args.streamPort net with
      | refused tr =>
        intro hok
        simp at hok
      | opened sc =>
        intro hok
        dsimp only at hok
        rcases commandBody_ok_state _ _ _ _ hok with hr | ⟨kvs, m, hkvs, hmem, hr⟩
        · exact ⟨m0, by rw [hr]; exact hm, hm0⟩
        · exact ⟨m, by rw [hr]; exact pyGetItem_objSet_same kvs "model" (.str m),
            STATIC_MODELS_ne_empty m hmem⟩
    · have hamp' : startsWithAmp (pyStrip (args.input.getD "")) = false := by
        cases h2 : startsWithAmp (pyStrip (args.input.getD "")) with
        | false => rfl
        | true => exact absurd h2 hamp
      rw [dispatch_chat _ _ _ _ _ hu hamp'] at hok
      unfold chatPath at hok
      revert hok
      cases hh : pyGetItem sp "history" with
      | error e =>
        intro hok
        simp at hok
      | ok histV =>
        cases histV with
        | arr h0 =>
          dsimp only
          cases ho : openSocket args.streamHost args.streamPort net with
          | refused tr =>
            intro hok
            simp at hok
          | opened sc =>
            dsimp only
            intro hok
            rcases chatBody_ok_state _ _ _ _ _ hok with hr | ⟨kvs, full, hkvs, hr⟩
            · exact ⟨m0, by rw [hr]; exact hm, hm0⟩
            · refine ⟨m0, ?_, hm0⟩
              rw [hr, pyGetItem_objSet_other kvs "history" "model" _ (by decide), ← hkvs]
              exact hm
        | null => intro hok; simp at hok
        | bool b => intro hok; simp at hok
        | num n => intro hok; simp at hok
        | numF l => intro hok; simp at hok
        | str sx => intro hok; simp at hok
        | obj kvs2 => intro hok; simp at hok

/-- C9 witness. -/
theorem C9_model_nonempty_witness :
    nonEmptyStrModel (.obj [("model", .str DEFAULT_MODEL), ("history", .arr [])]) :=
  C9_model_nonempty ⟨none, none, "", 0⟩ ⟨true, [], .fail "x"⟩
    (.obj [("model", .str DEFAULT_MODEL), ("history", .arr [])])
    ⟨usageMsg, true, .obj [("model", .str DEFAULT_MODEL), ("history", .arr [])]⟩
    DEFAULT_MODEL rfl rfl (by decide) rfl

/-! ## Claim C7 -/

/-- C7 (counterexample): on the command path, a `sendall` failure on the state
snapshot raises before `_close_socket` is ever reached (source lines 127-129
have no `try`), so the opened socket is not closed on this exit path and the
exception propagates out of `chat`. -/
theorem C7_counterexample :
    chat ⟨some "@", none, "obs", 9⟩ ⟨true, [false], .fail "x"⟩ =
      (.exn "OSError", [.connected, .sendFail]) ∧
    Ev.closed ∉ [Ev.connected, Ev.sendFail] :=
  ⟨rfl, by simp⟩

/-- C7 (amended): whenever a side-channel socket is opened during a turn and
`chat` RETURNS NORMALLY, the socket is closed before the return; when an
exception propagates out of `chat` the socket may be left unclosed. -/
theorem C7_socket_closed_on_ok (args : Args) (net : Net)
    (hconn : Ev.connected ∈ (chat args net).2)
    (hok : isOk (chat args net).1 = true) :
    Ev.closed ∈ (chat args net).2 := by
  rw [chat_def] at hconn hok ⊢
  cases hst : defaultState (mkStatePayload args.state) with
  | error e =>
    rw [chatCore_err _ _ _ _ _ _ hst] at hconn
    simp at hconn
  | ok sp =>
    rw [chatCore_ok _ _ _ _ _ _ hst] at hconn hok ⊢
    by_cases hu : pyStrip (args.input.getD "") = ""
    · rw [hu, dispatch_empty] at hconn
      simp at hconn
    · by_cases hamp : startsWithAmp (pyStrip (args.input.getD "")) = true
      · rw [dispatch_command _ _ _ _ _ hu hamp] at hconn hok ⊢
        unfold commandPath at hconn hok ⊢
        revert hconn hok
        cases ho : openSocket args.streamHost args.streamPort net with
        | refused tr =>
          intro hok hconn
          simp [isOk] at hok
        | opened sc =>
          intro hok hconn
          dsimp only at hconn hok ⊢
          rcases openSocket_opened_inv _ _ _ _ ho with ⟨hsf, htr⟩ | ⟨hstr, htr⟩
          · rw [commandBody_false_tr _ _ _ hsf, htr] at hconn
            simp at hconn
          · exact commandBody_ok_closed _ _ _ hstr hok
      · have hamp' : startsWithAmp (pyStrip (args.input.getD "")) = false := by
          cases h2 : startsWithAmp (pyStrip (args.input.getD "")) with
          | false => rfl
          | true => exact absurd h2 hamp
        rw [dispatch_chat _ _ _ _ _ hu hamp'] at hconn hok ⊢
        unfold chatPath at hconn hok ⊢
        revert hconn hok
        cases hh : pyGetItem sp "history" with
        | error e =>
          intro hok hconn
          simp at hconn
        | ok histV =>
          cases histV with
          | arr h0 =>
            dsimp only
            cases ho : openSocket args.streamHost args.streamPort net with
            | refused tr =>
              intro hok hconn
              simp [isOk] at hok
            | opened sc =>
              dsimp only
              intro hok hconn
              rcases openSocket_opened_inv _ _ _ _ ho with ⟨hsf, htr⟩ | ⟨hstr, htr⟩
              · rw [chatBody_false_tr _ _ _ _ hsf, htr] at hconn
                simp at hconn
              · exact chatBody_ok_closed _ _ _ _ hstr hok
          | null => intro hok hconn; simp at hconn
          | bool b => intro hok hconn; simp at hconn
          | num n => intro hok hconn; simp at hconn
          | numF l => intro hok hconn; simp at hconn
          | str sx => intro hok hconn; simp at hconn
          | obj kvs2 => intro hok hconn; simp at hconn

/-- C7 witness. -/
theorem C7_socket_closed_on_ok_witness :
    Ev.closed ∈ (chat ⟨some "@zzz", none, "h", 1⟩ ⟨true, [], .fail "x"⟩).2 :=
  C7_socket_closed_on_ok ⟨some "@zzz", none, "h", 1⟩ ⟨true, [], .fail "x"⟩
    (by exact List.mem_cons_self _ _) rfl

end MastroChat
